import Mathlib

/-!
Shallow embedding of the Automatice-Participatory configuration toolset:
the validator (`validate-config.js`), the auto-fixer (`auto-fix-config.js`,
class `ConfigAutoFix`) and the orchestrator (`automate.js`).

The configuration document is modelled as a record of optional sections,
each a record of optional settings, following the data model of the
repository (sections `platform`, `global`, `authentication`, `api`,
`database`, `logging`, `security`, `performance`).  An absent field models
the JavaScript `undefined`.  JavaScript truthiness on the field types that
occur in the checks is modelled explicitly (`""` and `0` are falsy,
arrays are always truthy).  `new URL` (a Node builtin) is modelled as an
oracle parameter `urlOk` / `urlParse`; file-system effects and interactive
prompt answers are likewise oracle parameters, so every run of the tools
is a deterministic function of the configuration and the oracles.
-/

namespace LivePlatform

/-- `platform` section of the configuration document. -/
structure Platform where
  name : Option String := none
  version : Option String := none
  environment : Option String := none
deriving DecidableEq, Repr

/-- `global` section of the configuration document. -/
structure GlobalSection where
  enabled : Option Bool := none
  timezone : Option String := none
deriving DecidableEq, Repr

/-- `authentication` section of the configuration document. -/
structure Authentication where
  sessionTimeout : Option Int := none
  maxLoginAttempts : Option Int := none
deriving DecidableEq, Repr

/-- `api` section of the configuration document. -/
structure Api where
  baseUrl : Option String := none
  timeout : Option Int := none
deriving DecidableEq, Repr

/-- `database` section of the configuration document. -/
structure Database where
  host : Option String := none
  enableLogging : Option Bool := none
deriving DecidableEq, Repr

/-- `logging` section of the configuration document. -/
structure Logging where
  level : Option String := none
  enableFile : Option Bool := none
  logDirectory : Option String := none
deriving DecidableEq, Repr

/-- `security` section of the configuration document. -/
structure Security where
  corsEnabled : Option Bool := none
  allowedOrigins : Option (List String) := none
  enableSSL : Option Bool := none
  enableHSTS : Option Bool := none
deriving DecidableEq, Repr

/-- `performance.caching` sub-section. -/
structure Caching where
  enabled : Option Bool := none
  ttl : Option Int := none
deriving DecidableEq, Repr

/-- `performance.compression` sub-section. -/
structure Compression where
  enabled : Option Bool := none
deriving DecidableEq, Repr

/-- `performance` section of the configuration document. -/
structure Performance where
  caching : Option Caching := none
  compression : Option Compression := none
deriving DecidableEq, Repr

/-- The whole configuration document (`liveplatform.config.json`). -/
structure Config where
  platform : Option Platform := none
  global : Option GlobalSection := none
  authentication : Option Authentication := none
  api : Option Api := none
  database : Option Database := none
  logging : Option Logging := none
  security : Option Security := none
  performance : Option Performance := none
deriving DecidableEq, Repr

/-- JavaScript truthiness of an optional string (`undefined` and `""` are falsy). -/
def truthyStr : Option String → Bool
  | some s => s ≠ ""
  | none => false

/-- JavaScript truthiness of an optional number (`undefined` and `0` are falsy). -/
def truthyInt : Option Int → Bool
  | some n => n ≠ 0
  | none => false

/-- JavaScript truthiness of an optional boolean (`undefined` and `false` are falsy). -/
def truthyBool : Option Bool → Bool
  | some b => b
  | none => false

/-! ### The version regex

`validate-config.js` checks `platform.version` against the anchored regex
`/^\d+\.\d+\.\d+$/`.  Since `\d` and the literal `.` match disjoint
character sets, greedy matching is exact and the regex accepts precisely
the strings of the form digits `.` digits `.` digits. -/

/-- Consume a maximal nonempty run of digits; fail if there is none.
Returns the digits and the rest. -/
def chompNum (l : List Char) : Option (List Char × List Char) :=
  let d := l.takeWhile Char.isDigit
  if d.isEmpty then none else some (d, l.dropWhile Char.isDigit)

/-- Consume a literal dot. -/
def chompDot : List Char → Option (List Char)
  | c :: r => if c = '.' then some r else none
  | [] => none

/-- `versionRegex.test(s)` for `versionRegex = /^\d+\.\d+\.\d+$/`. -/
def versionRegexTest (s : String) : Bool :=
  match chompNum s.data with
  | none => false
  | some (_, r1) =>
    match chompDot r1 with
    | none => false
    | some r1' =>
      match chompNum r1' with
      | none => false
      | some (_, r2) =>
        match chompDot r2 with
        | none => false
        | some r2' =>
          match chompNum r2' with
          | none => false
          | some (_, r3) => r3.isEmpty

/-- The spec wording of the version check: the string is
digits `.` digits `.` digits, with each digit run nonempty and anchored at
both ends.  Stated from the spec to compare with `versionRegexTest`. -/
def versionShape (s : String) : Prop :=
  ∃ a b c : List Char, a ≠ [] ∧ b ≠ [] ∧ c ≠ [] ∧
    (∀ ch ∈ a, ch.isDigit) ∧ (∀ ch ∈ b, ch.isDigit) ∧ (∀ ch ∈ c, ch.isDigit) ∧
    s.data = a ++ '.' :: (b ++ '.' :: c)

/-! ### The validator (`validate-config.js`, function `validateConfiguration`) -/

/-- Valid environments accepted by the validator. -/
def validEnvironments : List String := ["production", "staging", "development"]

/-- Valid logging levels accepted by the validator. -/
def validLevels : List String := ["debug", "info", "warn", "error"]

/-- Platform section checks, in source order: required fields truthy,
version matches the semver regex, environment in the allowed list. -/
def validatePlatform (p : Platform) : Except String Unit :=
  match p.name, p.version, p.environment with
  | some nm, some v, some env =>
    if nm = "" ∨ v = "" ∨ env = "" then
      .error "Platform section is missing required fields"
    else if ¬ versionRegexTest v then
      .error "Platform version must follow semantic versioning (e.g., 1.0.0)"
    else if ¬ validEnvironments.contains env then
      .error ("Invalid environment: " ++ env)
    else .ok ()
  | _, _, _ => .error "Platform section is missing required fields"

/-- Global section checks: `global.enabled` must be a boolean (in the typed
model: present), `global.timezone` must be truthy. -/
def validateGlobal (g : GlobalSection) : Except String Unit :=
  if g.enabled.isNone then .error "global.enabled must be a boolean"
  else if ¬ truthyStr g.timezone then .error "global.timezone is required"
  else .ok ()

/-- `config.authentication.sessionTimeout && sessionTimeout < 60`:
the range check fires only when the value is truthy (present and nonzero). -/
def badSessionTimeout : Option Int → Bool
  | some t => t ≠ 0 && t < 60
  | none => false

/-- `maxLoginAttempts && (maxLoginAttempts < 1 || maxLoginAttempts > 10)`. -/
def badMaxLoginAttempts : Option Int → Bool
  | some m => m ≠ 0 && (m < 1 || m > 10)
  | none => false

/-- Authentication section checks. -/
def validateAuthentication (a : Authentication) : Except String Unit :=
  if badSessionTimeout a.sessionTimeout then
    .error "sessionTimeout must be at least 60 seconds"
  else if badMaxLoginAttempts a.maxLoginAttempts then
    .error "maxLoginAttempts must be between 1 and 10"
  else .ok ()

/-- `config.api.baseUrl` truthy but not a parseable URL (`new URL` throws). -/
def badBaseUrl (urlOk : String → Bool) : Option String → Bool
  | some u => u ≠ "" && !(urlOk u)
  | none => false

/-- `config.api.timeout && config.api.timeout < 1000`. -/
def badApiTimeout : Option Int → Bool
  | some t => t ≠ 0 && t < 1000
  | none => false

/-- API section checks. -/
def validateApi (urlOk : String → Bool) (a : Api) : Except String Unit :=
  if badBaseUrl urlOk a.baseUrl then .error "api.baseUrl must be a valid URL"
  else if badApiTimeout a.timeout then .error "api.timeout must be at least 1000ms"
  else .ok ()

/-- `config.logging.level` truthy but not a valid level. -/
def badLogLevel : Option String → Bool
  | some l => l ≠ "" && !(validLevels.contains l)
  | none => false

/-- Logging section checks. -/
def validateLogging (l : Logging) : Except String Unit :=
  if badLogLevel l.level then .error "Invalid logging level"
  else .ok ()

/-- The section names reported missing by the required-sections check. -/
def missingSections (c : Config) : List String :=
  (if c.platform.isNone then ["platform"] else []) ++
  (if c.global.isNone then ["global"] else [])

/-- Sequence two checks: the first failing check aborts with its message. -/
def vseq (a b : Except String Unit) : Except String Unit :=
  match a with
  | .error e => .error e
  | .ok () => b

/-- Authentication checks, run only when the section is present. -/
def validateAuthSection (c : Config) : Except String Unit :=
  match c.authentication with
  | some a => validateAuthentication a
  | none => .ok ()

/-- API checks, run only when the section is present. -/
def validateApiSection (urlOk : String → Bool) (c : Config) : Except String Unit :=
  match c.api with
  | some a => validateApi urlOk a
  | none => .ok ()

/-- Logging checks, run only when the section is present. -/
def validateLoggingSection (c : Config) : Except String Unit :=
  match c.logging with
  | some l => validateLogging l
  | none => .ok ()

/-- `validateConfiguration` from `validate-config.js`: the checks run in
source order and the first failing check aborts with its message.
`urlOk` is the `new URL` oracle. -/
def validateConfiguration (urlOk : String → Bool) (c : Config) : Except String Unit :=
  match c.platform, c.global with
  | some p, some g =>
    vseq (validatePlatform p)
      (vseq (validateGlobal g)
        (vseq (validateAuthSection c)
          (vseq (validateApiSection urlOk c) (validateLoggingSection c))))
  | _, _ => .error ("Missing required sections: " ++ String.intercalate ", " (missingSections c))

/-- Exit code of `validate-config.js`: 0 on full pass, 1 on any failure. -/
def validatorExit (urlOk : String → Bool) (c : Config) : Nat :=
  match validateConfiguration urlOk c with
  | .ok () => 0
  | .error _ => 1

instance : DecidableEq (Except String Unit) := fun a b =>
  match a, b with
  | .ok (), .ok () => isTrue rfl
  | .error x, .error y =>
    if h : x = y then isTrue (h ▸ rfl) else isFalse (fun hh => h (by injection hh))
  | .ok (), .error _ => isFalse (fun hh => Except.noConfusion hh)
  | .error _, .ok () => isFalse (fun hh => Except.noConfusion hh)

/-! ### The auto-fixer (`auto-fix-config.js`, class `ConfigAutoFix`) -/

/-- A JSON-ish value recorded in a fix or warning entry (`from`, `to`,
`current`); `jmissing` models the JavaScript `undefined`. -/
inductive JVal
  | jbool (b : Bool)
  | jstr (s : String)
  | jarr (xs : List String)
  | jmissing
deriving DecidableEq, Repr

/-- Lift an optional string to a recorded value. -/
def jOfOptStr : Option String → JVal
  | some s => .jstr s
  | none => .jmissing

/-- One entry of `this.fixes` (`from` is a Lean keyword, hence `fromVal`). -/
structure FixEntry where
  field : String
  fromVal : JVal
  toVal : JVal
  reason : String
deriving DecidableEq, Repr

/-- One entry of `this.warnings`. -/
structure WarnEntry where
  type : String
  field : String
  current : JVal
  issue : String
deriving DecidableEq, Repr

/-- The mutable state of a `ConfigAutoFix` run: the in-memory config, the
recorded fixes and warnings, the interactive answers not yet consumed, and
the warnings printed to the console (not recorded in `this.warnings`). -/
structure FixState where
  config : Config
  fixes : List FixEntry
  warnings : List WarnEntry
  answers : List String
  consoleWarns : List String
deriving DecidableEq, Repr

/-- The oracle parameters of a run: the CLI mode, the `new URL` builtin
(returning the protocol of a parseable URL), and the file-system outcomes
(log-directory existence, `mkdirSync` success, `writeFileSync` success). -/
structure FixParams where
  interactive : Bool
  urlParse : String → Option String
  dirExists : Bool
  mkdirOk : Bool
  writeOk : Bool

/-- The fresh state built by `run` after `loadConfig` succeeds. -/
def initState (c : Config) (answers : List String) : FixState :=
  { config := c, fixes := [], warnings := [], answers := answers, consoleWarns := [] }

/-- `this.prompt(...)`: consume the next interactive answer (empty answer
once input is exhausted). -/
def promptAnswer (st : FixState) : String × FixState :=
  match st.answers with
  | [] => ("", st)
  | a :: rest => (a, { st with answers := rest })

/-- `this.config.platform.environment` (read through the section option). -/
def cfgEnvironment (c : Config) : Option String := c.platform.bind Platform.environment

/-- The section-defaulting prologue of `analyzeAndFix`: missing sections
`platform`, `global`, `api`, `security`, `database`, `logging`,
`performance`, `performance.caching`, `performance.compression` are
replaced by empty objects. -/
def ensureSections (c : Config) : Config :=
  let perf := c.performance.getD {}
  { c with
    platform := some (c.platform.getD {}),
    global := some (c.global.getD {}),
    api := some (c.api.getD {}),
    security := some (c.security.getD {}),
    database := some (c.database.getD {}),
    logging := some (c.logging.getD {}),
    performance := some { perf with
      caching := some (perf.caching.getD {}),
      compression := some (perf.compression.getD {}) } }

/-- Helper for `fixPlaceholderApiUrl`: set `api.baseUrl` to the trimmed new
URL and record the fix. -/
def setApiBaseUrl (st : FixState) (newUrl : String) : FixState :=
  { st with
    config := { st.config with
      api := st.config.api.map fun a => { a with baseUrl := some newUrl.trim } },
    fixes := st.fixes ++ [{ field := "api.baseUrl",
                            fromVal := .jstr "https://api.example.com",
                            toVal := .jstr newUrl.trim,
                            reason := "Replaced placeholder with actual API URL" }] }

/-- The interactive tail of `fixPlaceholderApiUrl`: prompt for a new URL,
validate it with `new URL`, confirm a non-HTTPS URL in production, then
apply the fix.  `st1` already carries the placeholder warning. -/
def placeholderPromptStep (p : FixParams) (st1 : FixState) : FixState :=
  let newUrl := (promptAnswer st1).1
  let st2 := (promptAnswer st1).2
  if newUrl ≠ "" ∧ newUrl.trim ≠ "" then
    match p.urlParse newUrl with
    | none => st2
    | some protocol =>
      if cfgEnvironment st2.config = some "production" ∧ protocol ≠ "https:" then
        let proceed := (promptAnswer st2).1
        let st3 := (promptAnswer st2).2
        if proceed.toLower ≠ "y" then st3
        else setApiBaseUrl st3 newUrl
      else setApiBaseUrl st2 newUrl
  else st2

/-- `fixPlaceholderApiUrl`: warn on the placeholder URL; interactively
prompt for a replacement, validating it with `new URL` and confirming
non-HTTPS URLs in production. -/
def fixPlaceholderApiUrl (p : FixParams) (st : FixState) : FixState :=
  match st.config.api with
  | none => st
  | some api =>
    if api.baseUrl = some "https://api.example.com" then
      let st1 := { st with warnings := st.warnings ++
        [{ type := "placeholder", field := "api.baseUrl",
           current := jOfOptStr api.baseUrl, issue := "Using placeholder API URL" }] }
      if p.interactive then placeholderPromptStep p st1
      else st1
    else st

/-- Origin filter of `fixWildcardCors`: keep origins that `new URL`
accepts with an `http:` or `https:` protocol. -/
def validOriginFilter (urlParse : String → Option String) (origins : List String) :
    List String :=
  origins.filter fun o =>
    match urlParse o with
    | some protocol => protocol == "https:" || protocol == "http:"
    | none => false

/-- Helper for `fixWildcardCors`: replace the origin list and record the
fix (the recorded `from` is the literal `['*']` from the source). -/
def setAllowedOrigins (st : FixState) (validOrigins : List String) : FixState :=
  { st with
    config := { st.config with
      security := st.config.security.map fun s => { s with allowedOrigins := some validOrigins } },
    fixes := st.fixes ++ [{ field := "security.allowedOrigins",
                            fromVal := .jarr ["*"],
                            toVal := .jarr validOrigins,
                            reason := "Replaced wildcard CORS with explicit origins for production" }] }

/-- The interactive tail of `fixWildcardCors`: prompt for a
comma-separated origin list, keep the origins `new URL` accepts with an
http(s) protocol, and apply the fix when any survive.  `st1` already
carries the wildcard warning. -/
def wildcardPromptStep (p : FixParams) (st1 : FixState) : FixState :=
  let response := (promptAnswer st1).1
  let st2 := (promptAnswer st1).2
  if response ≠ "" ∧ response.trim ≠ "" then
    let origins := ((response.splitOn ",").map String.trim).filter (· ≠ "")
    let validOrigins := validOriginFilter p.urlParse origins
    if ¬ validOrigins.isEmpty then setAllowedOrigins st2 validOrigins
    else st2
  else st2

/-- `fixWildcardCors`: when CORS is enabled and the origin list contains
`*`, warn in production (and interactively prompt for explicit origins);
outside production only an informational line is printed. -/
def fixWildcardCors (p : FixParams) (st : FixState) : FixState :=
  match st.config.security with
  | none => st
  | some sec =>
    if truthyBool sec.corsEnabled &&
        (match sec.allowedOrigins with
         | some l => l.contains "*"
         | none => false) then
      if cfgEnvironment st.config = some "production" then
        let st1 := { st with warnings := st.warnings ++
          [{ type := "security", field := "security.allowedOrigins",
             current := .jarr (sec.allowedOrigins.getD []),
             issue := "Wildcard CORS in production is a security risk" }] }
        if p.interactive then wildcardPromptStep p st1
        else st1
      else st
    else st

/-- Development sub-rule: flip an explicit `database.enableLogging = false`
to `true`. -/
def devDatabaseStep (st : FixState) : FixState :=
  match st.config.database with
  | some db =>
    if db.enableLogging = some false then
      { st with
        config := { st.config with database := some { db with enableLogging := some true } },
        fixes := st.fixes ++ [{ field := "database.enableLogging",
                                fromVal := .jbool false, toVal := .jbool true,
                                reason := "Enabled database logging for development environment" }] }
    else st
  | none => st

/-- Development sub-rule: force `logging.level = "debug"` when it is
anything else (including unset). -/
def devLoggingStep (st : FixState) : FixState :=
  match st.config.logging with
  | some lg =>
    if lg.level ≠ some "debug" then
      { st with
        config := { st.config with logging := some { lg with level := some "debug" } },
        fixes := st.fixes ++ [{ field := "logging.level",
                                fromVal := jOfOptStr lg.level, toVal := .jstr "debug",
                                reason := "Set debug logging level for development environment" }] }
    else st
  | none => st

/-- `fixEnvironmentSettings`: in development, force
`database.enableLogging = true` and `logging.level = "debug"`. -/
def fixEnvironmentSettings (st : FixState) : FixState :=
  if cfgEnvironment st.config = some "development" then
    devLoggingStep (devDatabaseStep st)
  else st

/-- Production sub-rule: flip an explicit `security.enableSSL = false`
to `true`. -/
def prodSSLStep (st : FixState) : FixState :=
  match st.config.security with
  | some sec =>
    if sec.enableSSL = some false then
      { st with
        config := { st.config with security := some { sec with enableSSL := some true } },
        fixes := st.fixes ++ [{ field := "security.enableSSL",
                                fromVal := .jbool false, toVal := .jbool true,
                                reason := "Enabled SSL for production environment" }] }
    else st
  | none => st

/-- Production sub-rule: flip an explicit `security.enableHSTS = false`
to `true`. -/
def prodHSTSStep (st : FixState) : FixState :=
  match st.config.security with
  | some sec =>
    if sec.enableHSTS = some false then
      { st with
        config := { st.config with security := some { sec with enableHSTS := some true } },
        fixes := st.fixes ++ [{ field := "security.enableHSTS",
                                fromVal := .jbool false, toVal := .jbool true,
                                reason := "Enabled HSTS for production environment" }] }
    else st
  | none => st

/-- Production sub-rule: flip an explicit `database.enableLogging = true`
to `false`. -/
def prodDbLogStep (st : FixState) : FixState :=
  match st.config.database with
  | some db =>
    if db.enableLogging = some true then
      { st with
        config := { st.config with database := some { db with enableLogging := some false } },
        fixes := st.fixes ++ [{ field := "database.enableLogging",
                                fromVal := .jbool true, toVal := .jbool false,
                                reason := "Disabled database logging for production performance" }] }
    else st
  | none => st

/-- `fixProductionSecurity`: in production, enable SSL and HSTS when
explicitly disabled, and disable database logging when explicitly
enabled. -/
def fixProductionSecurity (st : FixState) : FixState :=
  if cfgEnvironment st.config = some "production" then
    prodDbLogStep (prodHSTSStep (prodSSLStep st))
  else st

/-- Performance sub-rule: flip an explicit
`performance.caching.enabled = false` to `true`. -/
def cachingStep (st : FixState) : FixState :=
  match st.config.performance with
  | some perf =>
    match perf.caching with
    | some ca =>
      if ca.enabled = some false then
        { st with
          config := { st.config with
            performance := some { perf with caching := some { ca with enabled := some true } } },
          fixes := st.fixes ++ [{ field := "performance.caching.enabled",
                                  fromVal := .jbool false, toVal := .jbool true,
                                  reason := "Enabled caching for better performance" }] }
      else st
    | none => st
  | none => st

/-- Performance sub-rule: flip an explicit
`performance.compression.enabled = false` to `true`. -/
def compressionStep (st : FixState) : FixState :=
  match st.config.performance with
  | some perf =>
    match perf.compression with
    | some co =>
      if co.enabled = some false then
        { st with
          config := { st.config with
            performance := some { perf with compression := some { co with enabled := some true } } },
          fixes := st.fixes ++ [{ field := "performance.compression.enabled",
                                  fromVal := .jbool false, toVal := .jbool true,
                                  reason := "Enabled compression for better performance" }] }
      else st
    | none => st
  | none => st

/-- `optimizePerformanceSettings`: enable caching and compression when
explicitly disabled. -/
def optimizePerformanceSettings (st : FixState) : FixState :=
  compressionStep (cachingStep st)

/-- `fixLoggingSettings`: when file logging is enabled and the configured
log directory does not exist, try to create it; a failure is only printed
as a console warning (nothing recorded in `this.warnings`, no abort). -/
def fixLoggingSettings (p : FixParams) (st : FixState) : FixState :=
  match st.config.logging with
  | some lg =>
    if truthyBool lg.enableFile then
      if ¬ p.dirExists then
        if p.mkdirOk then st
        else { st with consoleWarns := st.consoleWarns ++ ["Could not create log directory"] }
      else st
    else st
  | none => st

/-- `analyzeAndFix`: default the sections, then run the six rules in
source order. -/
def analyzeAndFix (p : FixParams) (st : FixState) : FixState :=
  let st := { st with config := ensureSections st.config }
  let st := fixPlaceholderApiUrl p st
  let st := fixWildcardCors p st
  let st := fixEnvironmentSettings st
  let st := fixProductionSecurity st
  let st := optimizePerformanceSettings st
  fixLoggingSettings p st

/-- Outcome of `saveConfig`: saved to disk, skipped by the operator, or
failed with a thrown error. -/
inductive SaveResult
  | saved
  | skipped
  | failed (msg : String)
deriving DecidableEq, Repr

/-- `saveConfig`: interactively confirm, then write the file; a write
failure is rethrown as an error. -/
def saveConfig (p : FixParams) (st : FixState) : SaveResult × FixState :=
  if p.interactive then
    if ((promptAnswer st).1).toLower ≠ "y" then (.skipped, (promptAnswer st).2)
    else if p.writeOk then (.saved, (promptAnswer st).2)
    else (.failed "Failed to save configuration", (promptAnswer st).2)
  else
    if p.writeOk then (.saved, st)
    else (.failed "Failed to save configuration", st)

/-- The observable outcome of `ConfigAutoFix.run`: the boolean it returns
(`success`), whether the catch-all handler reported an error (`errored`),
whether the config file was rewritten (`saved`), and the final state. -/
structure RunOutcome where
  success : Bool
  errored : Bool
  saved : Bool
  finalState : Option FixState
deriving DecidableEq, Repr

/-- `ConfigAutoFix.run`: load (the oracle `loadResult` is `none` when
`readFileSync`/`JSON.parse` throws), analyze and fix, save when fixes were
applied, and return `fixes.length === 0 && warnings.length === 0`; any
thrown error is caught and turns the run into a `false` return. -/
def runAutoFix (p : FixParams) (loadResult : Option Config) (answers : List String) :
    RunOutcome :=
  match loadResult with
  | none => { success := false, errored := true, saved := false, finalState := none }
  | some cfg =>
    let st := analyzeAndFix p (initState cfg answers)
    if st.fixes.length > 0 then
      match saveConfig p st with
      | (.failed _, st1) =>
        { success := false, errored := true, saved := false, finalState := some st1 }
      | (.saved, st1) =>
        { success := st1.fixes.isEmpty && st1.warnings.isEmpty, errored := false,
          saved := true, finalState := some st1 }
      | (.skipped, st1) =>
        { success := st1.fixes.isEmpty && st1.warnings.isEmpty, errored := false,
          saved := false, finalState := some st1 }
    else
      { success := st.fixes.isEmpty && st.warnings.isEmpty, errored := false,
        saved := false, finalState := some st }

/-- `main` of `auto-fix-config.js`: `process.exit(success ? 0 : 1)`. -/
def autoFixExitCode (p : FixParams) (loadResult : Option Config) (answers : List String) :
    Nat :=
  if (runAutoFix p loadResult answers).success then 0 else 1

/-! ### The orchestrator (`automate.js`) -/

/-- `main` of `automate.js` as a function of the child exit codes:
return 0 when the initial validation passed in validate-only mode,
otherwise (not validate-only) run the fixer (its code is ignored) and
return by the re-validation code; all remaining paths fall through to 0. -/
def automateMain (validateOnly : Bool) (validateCode : Nat) (fixCode : Nat)
    (revalidateCode : Nat) : Nat :=
  if validateCode == 0 && validateOnly then 0
  else if !validateOnly then
    let _ := fixCode
    if revalidateCode == 0 then 0 else 1
  else 0

/-- Result of the full Validator → Auto-fixer → Validator pipeline run by
the orchestrator on one configuration file. -/
structure PipelineResult where
  firstValidation : Except String Unit
  fixState : FixState
  diskConfig : Config
  secondValidation : Except String Unit
deriving Repr

/-- The orchestrator pipeline: validate the file, run the auto-fixer on
it (rewriting the file only when it saved), then validate the file again.
The processes share no state beyond the file. -/
def runPipeline (urlOk : String → Bool) (p : FixParams) (answers : List String)
    (c : Config) : PipelineResult :=
  let v1 := validateConfiguration urlOk c
  let out := runAutoFix p (some c) answers
  let st := out.finalState.getD (initState c answers)
  let disk := if out.saved then st.config else c
  { firstValidation := v1, fixState := st, diskConfig := disk,
    secondValidation := validateConfiguration urlOk disk }

/-! ### Field accessors (dotted paths of the configuration document) -/

/-- `api.baseUrl`. -/
def cfgBaseUrl (c : Config) : Option String := c.api.bind Api.baseUrl

/-- `api.timeout`. -/
def cfgApiTimeout (c : Config) : Option Int := c.api.bind Api.timeout

/-- `security.corsEnabled`. -/
def cfgCorsEnabled (c : Config) : Option Bool := c.security.bind Security.corsEnabled

/-- `security.allowedOrigins`. -/
def cfgAllowedOrigins (c : Config) : Option (List String) :=
  c.security.bind Security.allowedOrigins

/-- `security.enableSSL`. -/
def cfgEnableSSL (c : Config) : Option Bool := c.security.bind Security.enableSSL

/-- `security.enableHSTS`. -/
def cfgEnableHSTS (c : Config) : Option Bool := c.security.bind Security.enableHSTS

/-- `database.enableLogging`. -/
def cfgDbLogging (c : Config) : Option Bool := c.database.bind Database.enableLogging

/-- `database.host`. -/
def cfgDbHost (c : Config) : Option String := c.database.bind Database.host

/-- `logging.level`. -/
def cfgLogLevel (c : Config) : Option String := c.logging.bind Logging.level

/-- `logging.enableFile`. -/
def cfgEnableFile (c : Config) : Option Bool := c.logging.bind Logging.enableFile

/-- `logging.logDirectory`. -/
def cfgLogDirectory (c : Config) : Option String := c.logging.bind Logging.logDirectory

/-- `performance.caching.enabled`. -/
def cfgCachingEnabled (c : Config) : Option Bool :=
  (c.performance.bind Performance.caching).bind Caching.enabled

/-- `performance.caching.ttl`. -/
def cfgCachingTtl (c : Config) : Option Int :=
  (c.performance.bind Performance.caching).bind Caching.ttl

/-- `performance.compression.enabled`. -/
def cfgCompressionEnabled (c : Config) : Option Bool :=
  (c.performance.bind Performance.compression).bind Compression.enabled

/-! ### Concrete oracles and configurations used in witnesses and
counterexamples -/

/-- `--no-interactive` run with a healthy file system. -/
def nonInteractiveParams : FixParams :=
  { interactive := false, urlParse := fun _ => none, dirExists := true,
    mkdirOk := true, writeOk := true }

/-- `--no-interactive` run whose `writeFileSync` throws. -/
def writeFailParams : FixParams :=
  { nonInteractiveParams with writeOk := false }

/-- A `new URL` oracle that accepts every string. -/
def urlAlwaysOk : String → Bool := fun _ => true

/-- A development configuration with `database.enableLogging = false`. -/
def cfgDevLogging : Config :=
  { platform := some { name := some "Automatice-Participatory",
                       version := some "1.0.0", environment := some "development" },
    global := some { enabled := some true, timezone := some "UTC" },
    database := some { enableLogging := some false } }

/-- A development configuration with file logging enabled and
`database.enableLogging = false` (triggers fixes and the log-directory
creation path). -/
def cfgDevFile : Config :=
  { platform := some { name := some "Automatice-Participatory",
                       version := some "1.0.0", environment := some "development" },
    global := some { enabled := some true, timezone := some "UTC" },
    database := some { enableLogging := some false },
    logging := some { enableFile := some true, logDirectory := some "./logs" } }

/-- A valid production configuration with `database.enableLogging = true`
(passes validation, yet triggers an auto-fix). -/
def cfgProdDbLog : Config :=
  { platform := some { name := some "Automatice-Participatory",
                       version := some "1.2.3", environment := some "production" },
    global := some { enabled := some true, timezone := some "UTC" },
    database := some { enableLogging := some true } }

/-- A valid production configuration with none of the auto-fix trigger
values. -/
def cfgProdClean : Config :=
  { platform := some { name := some "Automatice-Participatory",
                       version := some "1.2.3", environment := some "production" },
    global := some { enabled := some true, timezone := some "UTC" },
    security := some { enableSSL := some true, enableHSTS := some true },
    database := some { enableLogging := some false } }

/-- A valid configuration whose `authentication.sessionTimeout` is `0`
(falsy, so the range check is skipped). -/
def cfgAuthZero : Config :=
  { platform := some { name := some "Automatice-Participatory",
                       version := some "1.2.3", environment := some "production" },
    global := some { enabled := some true, timezone := some "UTC" },
    authentication := some { sessionTimeout := some 0, maxLoginAttempts := some 0 } }

/-- A production configuration whose `security` section is present but
leaves `enableSSL`/`enableHSTS` unset. -/
def cfgProdNoSSL : Config :=
  { platform := some { name := some "Automatice-Participatory",
                       version := some "1.2.3", environment := some "production" },
    global := some { enabled := some true, timezone := some "UTC" },
    security := some {} }

/-- A production configuration with wildcard CORS enabled. -/
def cfgProdWildcard : Config :=
  { platform := some { name := some "Automatice-Participatory",
                       version := some "1.2.3", environment := some "production" },
    global := some { enabled := some true, timezone := some "UTC" },
    security := some { corsEnabled := some true, allowedOrigins := some ["*"] } }

/-- A production configuration with the three explicitly bad booleans the
production rule flips. -/
def cfgProdBadSec : Config :=
  { platform := some { name := some "Automatice-Participatory",
                       version := some "1.2.3", environment := some "production" },
    global := some { enabled := some true, timezone := some "UTC" },
    security := some { enableSSL := some false, enableHSTS := some false },
    database := some { enableLogging := some true } }

/-- The empty configuration document (`{}`). -/
def cfgEmpty : Config := {}

/-- A configuration missing the required `global` section. -/
def cfgMissingGlobal : Config :=
  { platform := some { name := some "Automatice-Participatory",
                       version := some "1.2.3", environment := some "production" } }

/-- A configuration with `sessionTimeout = 120` and
`maxLoginAttempts = 5`. -/
def cfgAuthFine : Config :=
  { platform := some { name := some "Automatice-Participatory",
                       version := some "1.2.3", environment := some "production" },
    global := some { enabled := some true, timezone := some "UTC" },
    authentication := some { sessionTimeout := some 120, maxLoginAttempts := some 5 } }

/-- The fix entry recorded for `database.enableLogging` in development. -/
def devDbLogFixEntry : FixEntry :=
  { field := "database.enableLogging", fromVal := .jbool false, toVal := .jbool true,
    reason := "Enabled database logging for development environment" }

/-- The warning entry recorded for wildcard CORS in production. -/
def wildcardWarnEntry (origins : List String) : WarnEntry :=
  { type := "security", field := "security.allowedOrigins",
    current := .jarr origins, issue := "Wildcard CORS in production is a security risk" }

/-! ## Supporting lemmas -/

theorem promptAnswer_frame (st : FixState) :
    ((promptAnswer st).2).config = st.config ∧ ((promptAnswer st).2).fixes = st.fixes ∧
    ((promptAnswer st).2).warnings = st.warnings := by
  obtain ⟨cfg, fx, ws, ans, cw⟩ := st
  cases ans <;> simp [promptAnswer]

theorem saveConfig_frame (p : FixParams) (st : FixState) :
    ((saveConfig p st).2).fixes = st.fixes ∧ ((saveConfig p st).2).warnings = st.warnings := by
  have hp := promptAnswer_frame st
  unfold saveConfig
  split_ifs <;> simp_all

theorem fixLoggingSettings_frame (p : FixParams) (st : FixState) :
    (fixLoggingSettings p st).config = st.config ∧
    (fixLoggingSettings p st).fixes = st.fixes ∧
    (fixLoggingSettings p st).warnings = st.warnings ∧
    (fixLoggingSettings p st).answers = st.answers := by
  unfold fixLoggingSettings
  rcases st.config.logging with _ | lg
  · simp
  · cases hf : truthyBool lg.enableFile <;> split_ifs <;> simp_all

theorem ensure_environment (c : Config) :
    cfgEnvironment (ensureSections c) = cfgEnvironment c := by
  cases h : c.platform <;> simp [ensureSections, cfgEnvironment, h]

theorem ensure_enableSSL (c : Config) :
    cfgEnableSSL (ensureSections c) = cfgEnableSSL c := by
  cases h : c.security <;> simp [ensureSections, cfgEnableSSL, h]

theorem ensure_enableHSTS (c : Config) :
    cfgEnableHSTS (ensureSections c) = cfgEnableHSTS c := by
  cases h : c.security <;> simp [ensureSections, cfgEnableHSTS, h]

theorem ensure_corsEnabled (c : Config) :
    cfgCorsEnabled (ensureSections c) = cfgCorsEnabled c := by
  cases h : c.security <;> simp [ensureSections, cfgCorsEnabled, h]

theorem ensure_allowedOrigins (c : Config) :
    cfgAllowedOrigins (ensureSections c) = cfgAllowedOrigins c := by
  cases h : c.security <;> simp [ensureSections, cfgAllowedOrigins, h]

theorem ensure_dbLogging (c : Config) :
    cfgDbLogging (ensureSections c) = cfgDbLogging c := by
  cases h : c.database <;> simp [ensureSections, cfgDbLogging, h]

theorem ensure_dbHost (c : Config) :
    cfgDbHost (ensureSections c) = cfgDbHost c := by
  cases h : c.database <;> simp [ensureSections, cfgDbHost, h]

theorem ensure_baseUrl (c : Config) :
    cfgBaseUrl (ensureSections c) = cfgBaseUrl c := by
  cases h : c.api <;> simp [ensureSections, cfgBaseUrl, h]

theorem ensure_apiTimeout (c : Config) :
    cfgApiTimeout (ensureSections c) = cfgApiTimeout c := by
  cases h : c.api <;> simp [ensureSections, cfgApiTimeout, h]

theorem ensure_enableFile (c : Config) :
    cfgEnableFile (ensureSections c) = cfgEnableFile c := by
  cases h : c.logging <;> simp [ensureSections, cfgEnableFile, h]

theorem ensure_logDirectory (c : Config) :
    cfgLogDirectory (ensureSections c) = cfgLogDirectory c := by
  cases h : c.logging <;> simp [ensureSections, cfgLogDirectory, h]

theorem ensure_cachingEnabled (c : Config) :
    cfgCachingEnabled (ensureSections c) = cfgCachingEnabled c := by
  cases h : c.performance with
  | none => simp [ensureSections, cfgCachingEnabled, h]
  | some perf => cases h2 : perf.caching <;> simp [ensureSections, cfgCachingEnabled, h, h2]

theorem ensure_cachingTtl (c : Config) :
    cfgCachingTtl (ensureSections c) = cfgCachingTtl c := by
  cases h : c.performance with
  | none => simp [ensureSections, cfgCachingTtl, h]
  | some perf => cases h2 : perf.caching <;> simp [ensureSections, cfgCachingTtl, h, h2]

theorem ensure_compressionEnabled (c : Config) :
    cfgCompressionEnabled (ensureSections c) = cfgCompressionEnabled c := by
  cases h : c.performance with
  | none => simp [ensureSections, cfgCompressionEnabled, h]
  | some perf =>
    cases h2 : perf.compression <;> simp [ensureSections, cfgCompressionEnabled, h, h2]

theorem cfgEnvironment_congr {c d : Config} (h : d.platform = c.platform) :
    cfgEnvironment d = cfgEnvironment c := by unfold cfgEnvironment; rw [h]

theorem cfgBaseUrl_congr {c d : Config} (h : d.api = c.api) :
    cfgBaseUrl d = cfgBaseUrl c := by unfold cfgBaseUrl; rw [h]

theorem cfgApiTimeout_congr {c d : Config} (h : d.api = c.api) :
    cfgApiTimeout d = cfgApiTimeout c := by unfold cfgApiTimeout; rw [h]

theorem cfgCorsEnabled_congr {c d : Config} (h : d.security = c.security) :
    cfgCorsEnabled d = cfgCorsEnabled c := by unfold cfgCorsEnabled; rw [h]

theorem cfgAllowedOrigins_congr {c d : Config} (h : d.security = c.security) :
    cfgAllowedOrigins d = cfgAllowedOrigins c := by unfold cfgAllowedOrigins; rw [h]

theorem cfgEnableSSL_congr {c d : Config} (h : d.security = c.security) :
    cfgEnableSSL d = cfgEnableSSL c := by unfold cfgEnableSSL; rw [h]

theorem cfgEnableHSTS_congr {c d : Config} (h : d.security = c.security) :
    cfgEnableHSTS d = cfgEnableHSTS c := by unfold cfgEnableHSTS; rw [h]

theorem cfgDbLogging_congr {c d : Config} (h : d.database = c.database) :
    cfgDbLogging d = cfgDbLogging c := by unfold cfgDbLogging; rw [h]

theorem cfgDbHost_congr {c d : Config} (h : d.database = c.database) :
    cfgDbHost d = cfgDbHost c := by unfold cfgDbHost; rw [h]

theorem cfgEnableFile_congr {c d : Config} (h : d.logging = c.logging) :
    cfgEnableFile d = cfgEnableFile c := by unfold cfgEnableFile; rw [h]

theorem cfgLogDirectory_congr {c d : Config} (h : d.logging = c.logging) :
    cfgLogDirectory d = cfgLogDirectory c := by unfold cfgLogDirectory; rw [h]

theorem cfgCachingEnabled_congr {c d : Config} (h : d.performance = c.performance) :
    cfgCachingEnabled d = cfgCachingEnabled c := by unfold cfgCachingEnabled; rw [h]

theorem cfgCachingTtl_congr {c d : Config} (h : d.performance = c.performance) :
    cfgCachingTtl d = cfgCachingTtl c := by unfold cfgCachingTtl; rw [h]

theorem cfgCompressionEnabled_congr {c d : Config} (h : d.performance = c.performance) :
    cfgCompressionEnabled d = cfgCompressionEnabled c := by
  unfold cfgCompressionEnabled; rw [h]

theorem devDatabaseStep_frame (st : FixState) :
    (devDatabaseStep st).config.platform = st.config.platform ∧
    (devDatabaseStep st).config.global = st.config.global ∧
    (devDatabaseStep st).config.authentication = st.config.authentication ∧
    (devDatabaseStep st).config.api = st.config.api ∧
    (devDatabaseStep st).config.security = st.config.security ∧
    (devDatabaseStep st).config.logging = st.config.logging ∧
    (devDatabaseStep st).config.performance = st.config.performance ∧
    cfgDbHost (devDatabaseStep st).config = cfgDbHost st.config ∧
    (devDatabaseStep st).warnings = st.warnings ∧
    ∃ ex, (devDatabaseStep st).fixes = st.fixes ++ ex ∧
      ∀ f ∈ ex, f.field = "database.enableLogging" := by
  unfold devDatabaseStep
  rcases hdb : st.config.database with _ | db
  · exact ⟨rfl, rfl, rfl, rfl, rfl, rfl, rfl, rfl, rfl, [], by simp, by simp⟩
  · dsimp only; split_ifs with h
    · exact ⟨rfl, rfl, rfl, rfl, rfl, rfl, rfl, by simp [cfgDbHost, hdb], rfl,
        [_], rfl, by simp⟩
    · exact ⟨rfl, rfl, rfl, rfl, rfl, rfl, rfl, rfl, rfl, [], by simp, by simp⟩

theorem devDatabaseStep_flip (st : FixState) (h : cfgDbLogging st.config = some false) :
    cfgDbLogging (devDatabaseStep st).config = some true ∧
    (devDatabaseStep st).fixes = st.fixes ++ [devDbLogFixEntry] := by
  unfold devDatabaseStep
  rcases hdb : st.config.database with _ | db
  · rw [cfgDbLogging, hdb] at h; simp at h
  · rw [cfgDbLogging, hdb] at h
    simp at h
    dsimp only; rw [if_pos h]
    exact ⟨by simp [cfgDbLogging], rfl⟩

theorem devLoggingStep_frame (st : FixState) :
    (devLoggingStep st).config.platform = st.config.platform ∧
    (devLoggingStep st).config.global = st.config.global ∧
    (devLoggingStep st).config.authentication = st.config.authentication ∧
    (devLoggingStep st).config.api = st.config.api ∧
    (devLoggingStep st).config.security = st.config.security ∧
    (devLoggingStep st).config.database = st.config.database ∧
    (devLoggingStep st).config.performance = st.config.performance ∧
    cfgEnableFile (devLoggingStep st).config = cfgEnableFile st.config ∧
    cfgLogDirectory (devLoggingStep st).config = cfgLogDirectory st.config ∧
    (devLoggingStep st).warnings = st.warnings ∧
    ∃ ex, (devLoggingStep st).fixes = st.fixes ++ ex ∧
      ∀ f ∈ ex, f.field = "logging.level" := by
  unfold devLoggingStep
  rcases hlg : st.config.logging with _ | lg
  · exact ⟨rfl, rfl, rfl, rfl, rfl, rfl, rfl, rfl, rfl, rfl, [], by simp, by simp⟩
  · dsimp only; split_ifs with h
    · exact ⟨rfl, rfl, rfl, rfl, rfl, rfl, rfl, by simp [cfgEnableFile, hlg],
        by simp [cfgLogDirectory, hlg], rfl, [_], rfl, by simp⟩
    · exact ⟨rfl, rfl, rfl, rfl, rfl, rfl, rfl, rfl, rfl, rfl, [], by simp, by simp⟩

theorem prodSSLStep_frame (st : FixState) :
    (prodSSLStep st).config.platform = st.config.platform ∧
    (prodSSLStep st).config.global = st.config.global ∧
    (prodSSLStep st).config.authentication = st.config.authentication ∧
    (prodSSLStep st).config.api = st.config.api ∧
    (prodSSLStep st).config.database = st.config.database ∧
    (prodSSLStep st).config.logging = st.config.logging ∧
    (prodSSLStep st).config.performance = st.config.performance ∧
    cfgCorsEnabled (prodSSLStep st).config = cfgCorsEnabled st.config ∧
    cfgAllowedOrigins (prodSSLStep st).config = cfgAllowedOrigins st.config ∧
    cfgEnableHSTS (prodSSLStep st).config = cfgEnableHSTS st.config ∧
    (prodSSLStep st).warnings = st.warnings ∧
    ∃ ex, (prodSSLStep st).fixes = st.fixes ++ ex ∧
      ∀ f ∈ ex, f.field = "security.enableSSL" := by
  unfold prodSSLStep
  rcases hs : st.config.security with _ | sec
  · exact ⟨rfl, rfl, rfl, rfl, rfl, rfl, rfl, rfl, rfl, rfl, rfl, [], by simp, by simp⟩
  · dsimp only; split_ifs with h
    · exact ⟨rfl, rfl, rfl, rfl, rfl, rfl, rfl, by simp [cfgCorsEnabled, hs],
        by simp [cfgAllowedOrigins, hs], by simp [cfgEnableHSTS, hs], rfl,
        [_], rfl, by simp⟩
    · exact ⟨rfl, rfl, rfl, rfl, rfl, rfl, rfl, rfl, rfl, rfl, rfl, [], by simp, by simp⟩

theorem prodSSLStep_post (st : FixState) :
    cfgEnableSSL (prodSSLStep st).config ≠ some false ∨ prodSSLStep st = st := by
  unfold prodSSLStep
  rcases hs : st.config.security with _ | sec
  · exact .inr rfl
  · dsimp only; split_ifs with h
    · exact .inl (by simp [cfgEnableSSL])
    · exact .inr rfl

theorem prodSSLStep_flip (st : FixState) (h : cfgEnableSSL st.config = some false) :
    cfgEnableSSL (prodSSLStep st).config = some true := by
  unfold prodSSLStep
  rcases hs : st.config.security with _ | sec
  · rw [cfgEnableSSL, hs] at h; simp at h
  · rw [cfgEnableSSL, hs] at h
    simp at h
    dsimp only; rw [if_pos h]
    simp [cfgEnableSSL]

theorem prodSSLStep_id (st : FixState) (h : cfgEnableSSL st.config ≠ some false) :
    prodSSLStep st = st := by
  unfold prodSSLStep
  rcases hs : st.config.security with _ | sec
  · rfl
  · rw [cfgEnableSSL, hs] at h
    simp at h
    dsimp only; rw [if_neg h]

theorem prodHSTSStep_frame (st : FixState) :
    (prodHSTSStep st).config.platform = st.config.platform ∧
    (prodHSTSStep st).config.global = st.config.global ∧
    (prodHSTSStep st).config.authentication = st.config.authentication ∧
    (prodHSTSStep st).config.api = st.config.api ∧
    (prodHSTSStep st).config.database = st.config.database ∧
    (prodHSTSStep st).config.logging = st.config.logging ∧
    (prodHSTSStep st).config.performance = st.config.performance ∧
    cfgCorsEnabled (prodHSTSStep st).config = cfgCorsEnabled st.config ∧
    cfgAllowedOrigins (prodHSTSStep st).config = cfgAllowedOrigins st.config ∧
    cfgEnableSSL (prodHSTSStep st).config = cfgEnableSSL st.config ∧
    (prodHSTSStep st).warnings = st.warnings ∧
    ∃ ex, (prodHSTSStep st).fixes = st.fixes ++ ex ∧
      ∀ f ∈ ex, f.field = "security.enableHSTS" := by
  unfold prodHSTSStep
  rcases hs : st.config.security with _ | sec
  · exact ⟨rfl, rfl, rfl, rfl, rfl, rfl, rfl, rfl, rfl, rfl, rfl, [], by simp, by simp⟩
  · dsimp only; split_ifs with h
    · exact ⟨rfl, rfl, rfl, rfl, rfl, rfl, rfl, by simp [cfgCorsEnabled, hs],
        by simp [cfgAllowedOrigins, hs], by simp [cfgEnableSSL, hs], rfl,
        [_], rfl, by simp⟩
    · exact ⟨rfl, rfl, rfl, rfl, rfl, rfl, rfl, rfl, rfl, rfl, rfl, [], by simp, by simp⟩

theorem prodHSTSStep_flip (st : FixState) (h : cfgEnableHSTS st.config = some false) :
    cfgEnableHSTS (prodHSTSStep st).config = some true := by
  unfold prodHSTSStep
  rcases hs : st.config.security with _ | sec
  · rw [cfgEnableHSTS, hs] at h; simp at h
  · rw [cfgEnableHSTS, hs] at h
    simp at h
    dsimp only; rw [if_pos h]
    simp [cfgEnableHSTS]

theorem prodHSTSStep_id (st : FixState) (h : cfgEnableHSTS st.config ≠ some false) :
    prodHSTSStep st = st := by
  unfold prodHSTSStep
  rcases hs : st.config.security with _ | sec
  · rfl
  · rw [cfgEnableHSTS, hs] at h
    simp at h
    dsimp only; rw [if_neg h]

theorem prodHSTSStep_notFalse (st : FixState) (h : cfgEnableHSTS st.config ≠ some false) :
    cfgEnableHSTS (prodHSTSStep st).config ≠ some false := by
  rw [prodHSTSStep_id st h]; exact h

theorem prodDbLogStep_frame (st : FixState) :
    (prodDbLogStep st).config.platform = st.config.platform ∧
    (prodDbLogStep st).config.global = st.config.global ∧
    (prodDbLogStep st).config.authentication = st.config.authentication ∧
    (prodDbLogStep st).config.api = st.config.api ∧
    (prodDbLogStep st).config.security = st.config.security ∧
    (prodDbLogStep st).config.logging = st.config.logging ∧
    (prodDbLogStep st).config.performance = st.config.performance ∧
    cfgDbHost (prodDbLogStep st).config = cfgDbHost st.config ∧
    (prodDbLogStep st).warnings = st.warnings ∧
    ∃ ex, (prodDbLogStep st).fixes = st.fixes ++ ex ∧
      ∀ f ∈ ex, f.field = "database.enableLogging" := by
  unfold prodDbLogStep
  rcases hdb : st.config.database with _ | db
  · exact ⟨rfl, rfl, rfl, rfl, rfl, rfl, rfl, rfl, rfl, [], by simp, by simp⟩
  · dsimp only; split_ifs with h
    · exact ⟨rfl, rfl, rfl, rfl, rfl, rfl, rfl, by simp [cfgDbHost, hdb], rfl,
        [_], rfl, by simp⟩
    · exact ⟨rfl, rfl, rfl, rfl, rfl, rfl, rfl, rfl, rfl, [], by simp, by simp⟩

theorem prodDbLogStep_flip (st : FixState) (h : cfgDbLogging st.config = some true) :
    cfgDbLogging (prodDbLogStep st).config = some false := by
  unfold prodDbLogStep
  rcases hdb : st.config.database with _ | db
  · rw [cfgDbLogging, hdb] at h; simp at h
  · rw [cfgDbLogging, hdb] at h
    simp at h
    dsimp only; rw [if_pos h]
    simp [cfgDbLogging]

theorem prodDbLogStep_id (st : FixState) (h : cfgDbLogging st.config ≠ some true) :
    prodDbLogStep st = st := by
  unfold prodDbLogStep
  rcases hdb : st.config.database with _ | db
  · rfl
  · rw [cfgDbLogging, hdb] at h
    simp at h
    dsimp only; rw [if_neg h]

theorem cachingStep_frame (st : FixState) :
    (cachingStep st).config.platform = st.config.platform ∧
    (cachingStep st).config.global = st.config.global ∧
    (cachingStep st).config.authentication = st.config.authentication ∧
    (cachingStep st).config.api = st.config.api ∧
    (cachingStep st).config.database = st.config.database ∧
    (cachingStep st).config.logging = st.config.logging ∧
    (cachingStep st).config.security = st.config.security ∧
    cfgCachingTtl (cachingStep st).config = cfgCachingTtl st.config ∧
    cfgCompressionEnabled (cachingStep st).config = cfgCompressionEnabled st.config ∧
    (cachingStep st).warnings = st.warnings ∧
    ∃ ex, (cachingStep st).fixes = st.fixes ++ ex ∧
      ∀ f ∈ ex, f.field = "performance.caching.enabled" := by
  unfold cachingStep
  rcases hp : st.config.performance with _ | perf
  · exact ⟨rfl, rfl, rfl, rfl, rfl, rfl, rfl, rfl, rfl, rfl, [], by simp, by simp⟩
  · dsimp only
    rcases hc : perf.caching with _ | ca
    · exact ⟨rfl, rfl, rfl, rfl, rfl, rfl, rfl, rfl, rfl, rfl, [], by simp, by simp⟩
    · dsimp only; split_ifs with h
      · exact ⟨rfl, rfl, rfl, rfl, rfl, rfl, rfl, by simp [cfgCachingTtl, hp, hc],
          by simp [cfgCompressionEnabled, hp], rfl, [_], rfl, by simp⟩
      · exact ⟨rfl, rfl, rfl, rfl, rfl, rfl, rfl, rfl, rfl, rfl, [], by simp, by simp⟩

theorem cachingStep_id (st : FixState) (h : cfgCachingEnabled st.config ≠ some false) :
    cachingStep st = st := by
  unfold cachingStep
  rcases hp : st.config.performance with _ | perf
  · rfl
  · dsimp only
    rcases hc : perf.caching with _ | ca
    · rfl
    · rw [cfgCachingEnabled, hp] at h
      simp [hc] at h
      dsimp only; rw [if_neg h]

theorem compressionStep_frame (st : FixState) :
    (compressionStep st).config.platform = st.config.platform ∧
    (compressionStep st).config.global = st.config.global ∧
    (compressionStep st).config.authentication = st.config.authentication ∧
    (compressionStep st).config.api = st.config.api ∧
    (compressionStep st).config.database = st.config.database ∧
    (compressionStep st).config.logging = st.config.logging ∧
    (compressionStep st).config.security = st.config.security ∧
    cfgCachingTtl (compressionStep st).config = cfgCachingTtl st.config ∧
    cfgCachingEnabled (compressionStep st).config = cfgCachingEnabled st.config ∧
    (compressionStep st).warnings = st.warnings ∧
    ∃ ex, (compressionStep st).fixes = st.fixes ++ ex ∧
      ∀ f ∈ ex, f.field = "performance.compression.enabled" := by
  unfold compressionStep
  rcases hp : st.config.performance with _ | perf
  · exact ⟨rfl, rfl, rfl, rfl, rfl, rfl, rfl, rfl, rfl, rfl, [], by simp, by simp⟩
  · dsimp only
    rcases hc : perf.compression with _ | co
    · exact ⟨rfl, rfl, rfl, rfl, rfl, rfl, rfl, rfl, rfl, rfl, [], by simp, by simp⟩
    · dsimp only; split_ifs with h
      · exact ⟨rfl, rfl, rfl, rfl, rfl, rfl, rfl, by simp [cfgCachingTtl, hp, hc],
          by simp [cfgCachingEnabled, hp, hc], rfl, [_], rfl, by simp⟩
      · exact ⟨rfl, rfl, rfl, rfl, rfl, rfl, rfl, rfl, rfl, rfl, [], by simp, by simp⟩

theorem compressionStep_id (st : FixState) (h : cfgCompressionEnabled st.config ≠ some false) :
    compressionStep st = st := by
  unfold compressionStep
  rcases hp : st.config.performance with _ | perf
  · rfl
  · dsimp only
    rcases hc : perf.compression with _ | co
    · rfl
    · rw [cfgCompressionEnabled, hp] at h
      simp [hc] at h
      dsimp only; rw [if_neg h]

theorem fixEnvironmentSettings_notDev (st : FixState)
    (h : cfgEnvironment st.config ≠ some "development") :
    fixEnvironmentSettings st = st := by
  unfold fixEnvironmentSettings; rw [if_neg h]

theorem fixEnvironmentSettings_dev (st : FixState)
    (h : cfgEnvironment st.config = some "development") :
    fixEnvironmentSettings st = devLoggingStep (devDatabaseStep st) := by
  unfold fixEnvironmentSettings; rw [if_pos h]

theorem fixProductionSecurity_notProd (st : FixState)
    (h : cfgEnvironment st.config ≠ some "production") :
    fixProductionSecurity st = st := by
  unfold fixProductionSecurity; rw [if_neg h]

theorem fixProductionSecurity_prod (st : FixState)
    (h : cfgEnvironment st.config = some "production") :
    fixProductionSecurity st = prodDbLogStep (prodHSTSStep (prodSSLStep st)) := by
  unfold fixProductionSecurity; rw [if_pos h]

theorem setApiBaseUrl_frame (st : FixState) (u : String) :
    (setApiBaseUrl st u).config.platform = st.config.platform ∧
    (setApiBaseUrl st u).config.global = st.config.global ∧
    (setApiBaseUrl st u).config.authentication = st.config.authentication ∧
    (setApiBaseUrl st u).config.database = st.config.database ∧
    (setApiBaseUrl st u).config.logging = st.config.logging ∧
    (setApiBaseUrl st u).config.security = st.config.security ∧
    (setApiBaseUrl st u).config.performance = st.config.performance ∧
    (setApiBaseUrl st u).warnings = st.warnings ∧
    ∃ ex, (setApiBaseUrl st u).fixes = st.fixes ++ ex ∧
      ∀ f ∈ ex, f.field = "api.baseUrl" :=
  ⟨rfl, rfl, rfl, rfl, rfl, rfl, rfl, rfl, [_], rfl, by simp⟩

theorem setAllowedOrigins_frame (st : FixState) (vo : List String) :
    (setAllowedOrigins st vo).config.platform = st.config.platform ∧
    (setAllowedOrigins st vo).config.global = st.config.global ∧
    (setAllowedOrigins st vo).config.authentication = st.config.authentication ∧
    (setAllowedOrigins st vo).config.api = st.config.api ∧
    (setAllowedOrigins st vo).config.database = st.config.database ∧
    (setAllowedOrigins st vo).config.logging = st.config.logging ∧
    (setAllowedOrigins st vo).config.performance = st.config.performance ∧
    cfgCorsEnabled (setAllowedOrigins st vo).config = cfgCorsEnabled st.config ∧
    cfgEnableSSL (setAllowedOrigins st vo).config = cfgEnableSSL st.config ∧
    cfgEnableHSTS (setAllowedOrigins st vo).config = cfgEnableHSTS st.config ∧
    (setAllowedOrigins st vo).warnings = st.warnings ∧
    ∃ ex, (setAllowedOrigins st vo).fixes = st.fixes ++ ex ∧
      ∀ f ∈ ex, f.field = "security.allowedOrigins" := by
  refine ⟨rfl, rfl, rfl, rfl, rfl, rfl, rfl, ?_, ?_, ?_, rfl, [_], rfl, by simp⟩ <;>
    cases hs : st.config.security <;>
      simp [setAllowedOrigins, cfgCorsEnabled, cfgEnableSSL, cfgEnableHSTS, hs]

theorem placeholderPromptStep_cases (p : FixParams) (st1 : FixState) :
    ∃ base : FixState, base.config = st1.config ∧ base.fixes = st1.fixes ∧
      base.warnings = st1.warnings ∧
      (placeholderPromptStep p st1 = base ∨
        ∃ u, placeholderPromptStep p st1 = setApiBaseUrl base u) := by
  have h1 := promptAnswer_frame st1
  have h2 := promptAnswer_frame (promptAnswer st1).2
  unfold placeholderPromptStep
  dsimp only
  rcases hu : p.urlParse (promptAnswer st1).1 with _ | protocol
  · dsimp only
    split_ifs with hA
    · exact ⟨(promptAnswer st1).2, h1.1, h1.2.1, h1.2.2, .inl rfl⟩
    · exact ⟨(promptAnswer st1).2, h1.1, h1.2.1, h1.2.2, .inl rfl⟩
  · dsimp only
    split_ifs with hA hB hC
    · exact ⟨(promptAnswer (promptAnswer st1).2).2, by rw [h2.1, h1.1],
        by rw [h2.2.1, h1.2.1], by rw [h2.2.2, h1.2.2], .inl rfl⟩
    · exact ⟨(promptAnswer (promptAnswer st1).2).2, by rw [h2.1, h1.1],
        by rw [h2.2.1, h1.2.1], by rw [h2.2.2, h1.2.2], .inr ⟨_, rfl⟩⟩
    · exact ⟨(promptAnswer st1).2, h1.1, h1.2.1, h1.2.2, .inr ⟨_, rfl⟩⟩
    · exact ⟨(promptAnswer st1).2, h1.1, h1.2.1, h1.2.2, .inl rfl⟩

theorem wildcardPromptStep_cases (p : FixParams) (st1 : FixState) :
    ∃ base : FixState, base.config = st1.config ∧ base.fixes = st1.fixes ∧
      base.warnings = st1.warnings ∧
      (wildcardPromptStep p st1 = base ∨
        ∃ vo, wildcardPromptStep p st1 = setAllowedOrigins base vo) := by
  have h1 := promptAnswer_frame st1
  unfold wildcardPromptStep
  dsimp only
  split_ifs with hA hB
  · exact ⟨(promptAnswer st1).2, h1.1, h1.2.1, h1.2.2, .inl rfl⟩
  · exact ⟨(promptAnswer st1).2, h1.1, h1.2.1, h1.2.2, .inr ⟨_, rfl⟩⟩
  · exact ⟨(promptAnswer st1).2, h1.1, h1.2.1, h1.2.2, .inl rfl⟩

theorem fixPlaceholderApiUrl_frame (p : FixParams) (st : FixState) :
    (fixPlaceholderApiUrl p st).config.platform = st.config.platform ∧
    (fixPlaceholderApiUrl p st).config.global = st.config.global ∧
    (fixPlaceholderApiUrl p st).config.authentication = st.config.authentication ∧
    (fixPlaceholderApiUrl p st).config.database = st.config.database ∧
    (fixPlaceholderApiUrl p st).config.logging = st.config.logging ∧
    (fixPlaceholderApiUrl p st).config.security = st.config.security ∧
    (fixPlaceholderApiUrl p st).config.performance = st.config.performance ∧
    (∃ ws, (fixPlaceholderApiUrl p st).warnings = st.warnings ++ ws ∧
      ∀ w ∈ ws, w.field = "api.baseUrl") ∧
    ∃ ex, (fixPlaceholderApiUrl p st).fixes = st.fixes ++ ex ∧
      ∀ f ∈ ex, f.field = "api.baseUrl" := by
  unfold fixPlaceholderApiUrl
  rcases hapi : st.config.api with _ | api
  · exact ⟨rfl, rfl, rfl, rfl, rfl, rfl, rfl, ⟨[], by simp, by simp⟩, [], by simp, by simp⟩
  · dsimp only
    split_ifs with h1 h2
    · obtain ⟨base, hbc, hbf, hbw, hcase⟩ := placeholderPromptStep_cases p
        { st with warnings := st.warnings ++
          [{ type := "placeholder", field := "api.baseUrl",
             current := jOfOptStr api.baseUrl, issue := "Using placeholder API URL" }] }
      rcases hcase with hres | ⟨u, hres⟩
      · rw [hres]
        exact ⟨by rw [hbc], by rw [hbc], by rw [hbc], by rw [hbc], by rw [hbc],
          by rw [hbc], by rw [hbc], ⟨[_], by rw [hbw], by simp⟩, [], by simp [hbf], by simp⟩
      · obtain ⟨s1, s2, s3, s4, s5, s6, s7, s8, ex, s9, s10⟩ := setApiBaseUrl_frame base u
        rw [hres]
        refine ⟨by rw [s1, hbc], by rw [s2, hbc], by rw [s3, hbc], by rw [s4, hbc],
          by rw [s5, hbc], by rw [s6, hbc], by rw [s7, hbc],
          ⟨[_], by rw [s8, hbw], by simp⟩, ex, by rw [s9, hbf], s10⟩
    · exact ⟨rfl, rfl, rfl, rfl, rfl, rfl, rfl, ⟨[_], rfl, by simp⟩, [], by simp, by simp⟩
    · exact ⟨rfl, rfl, rfl, rfl, rfl, rfl, rfl, ⟨[], by simp, by simp⟩, [], by simp, by simp⟩

theorem fixPlaceholderApiUrl_nonInteractive (p : FixParams) (st : FixState)
    (h : p.interactive = false) :
    (fixPlaceholderApiUrl p st).config = st.config ∧
    (fixPlaceholderApiUrl p st).fixes = st.fixes ∧
    ∃ ws, (fixPlaceholderApiUrl p st).warnings = st.warnings ++ ws ∧
      ∀ w ∈ ws, w.field = "api.baseUrl" := by
  unfold fixPlaceholderApiUrl
  rcases hapi : st.config.api with _ | api
  · exact ⟨rfl, rfl, [], by simp, by simp⟩
  · dsimp only
    split_ifs with h1 h2
    · rw [h] at h2; exact absurd h2 (by simp)
    · exact ⟨rfl, rfl, [_], rfl, by simp⟩
    · exact ⟨rfl, rfl, [], by simp, by simp⟩

theorem fixWildcardCors_frame (p : FixParams) (st : FixState) :
    (fixWildcardCors p st).config.platform = st.config.platform ∧
    (fixWildcardCors p st).config.global = st.config.global ∧
    (fixWildcardCors p st).config.authentication = st.config.authentication ∧
    (fixWildcardCors p st).config.api = st.config.api ∧
    (fixWildcardCors p st).config.database = st.config.database ∧
    (fixWildcardCors p st).config.logging = st.config.logging ∧
    (fixWildcardCors p st).config.performance = st.config.performance ∧
    cfgCorsEnabled (fixWildcardCors p st).config = cfgCorsEnabled st.config ∧
    cfgEnableSSL (fixWildcardCors p st).config = cfgEnableSSL st.config ∧
    cfgEnableHSTS (fixWildcardCors p st).config = cfgEnableHSTS st.config ∧
    (∃ ws, (fixWildcardCors p st).warnings = st.warnings ++ ws ∧
      ∀ w ∈ ws, w.field = "security.allowedOrigins") ∧
    ∃ ex, (fixWildcardCors p st).fixes = st.fixes ++ ex ∧
      ∀ f ∈ ex, f.field = "security.allowedOrigins" := by
  unfold fixWildcardCors
  rcases hsec : st.config.security with _ | sec
  · exact ⟨rfl, rfl, rfl, rfl, rfl, rfl, rfl, rfl, rfl, rfl,
      ⟨[], by simp, by simp⟩, [], by simp, by simp⟩
  · dsimp only
    split_ifs with g1 g2 g3
    · obtain ⟨base, hbc, hbf, hbw, hcase⟩ := wildcardPromptStep_cases p
        { st with warnings := st.warnings ++
          [{ type := "security", field := "security.allowedOrigins",
             current := .jarr (sec.allowedOrigins.getD []),
             issue := "Wildcard CORS in production is a security risk" }] }
      rcases hcase with hres | ⟨vo, hres⟩
      · rw [hres]
        exact ⟨by rw [hbc], by rw [hbc], by rw [hbc], by rw [hbc], by rw [hbc],
          by rw [hbc], by rw [hbc], by rw [hbc], by rw [hbc], by rw [hbc],
          ⟨[_], by rw [hbw], by simp⟩, [], by simp [hbf], by simp⟩
      · obtain ⟨s1, s2, s3, s4, s5, s6, s7, s8, s9, s10, s11, ex, s12, s13⟩ :=
          setAllowedOrigins_frame base vo
        rw [hres]
        refine ⟨by rw [s1, hbc], by rw [s2, hbc], by rw [s3, hbc], by rw [s4, hbc],
          by rw [s5, hbc], by rw [s6, hbc], by rw [s7, hbc],
          by rw [s8, hbc], by rw [s9, hbc], by rw [s10, hbc],
          ⟨[_], by rw [s11, hbw], by simp⟩, ex, by rw [s12, hbf], s13⟩
    · exact ⟨rfl, rfl, rfl, rfl, rfl, rfl, rfl, rfl, rfl, rfl,
        ⟨[_], rfl, by simp⟩, [], by simp, by simp⟩
    · exact ⟨rfl, rfl, rfl, rfl, rfl, rfl, rfl, rfl, rfl, rfl,
        ⟨[], by simp, by simp⟩, [], by simp, by simp⟩
    · exact ⟨rfl, rfl, rfl, rfl, rfl, rfl, rfl, rfl, rfl, rfl,
        ⟨[], by simp, by simp⟩, [], by simp, by simp⟩

theorem fixWildcardCors_nonInteractive (p : FixParams) (st : FixState)
    (h : p.interactive = false) :
    (fixWildcardCors p st).config = st.config ∧
    (fixWildcardCors p st).fixes = st.fixes ∧
    ∃ ws, (fixWildcardCors p st).warnings = st.warnings ++ ws ∧
      ∀ w ∈ ws, w.field = "security.allowedOrigins" := by
  unfold fixWildcardCors
  rcases hsec : st.config.security with _ | sec
  · exact ⟨rfl, rfl, [], by simp, by simp⟩
  · dsimp only
    split_ifs with g1 g2 g3
    · rw [h] at g3; exact absurd g3 (by simp)
    · exact ⟨rfl, rfl, [_], rfl, by simp⟩
    · exact ⟨rfl, rfl, [], by simp, by simp⟩
    · exact ⟨rfl, rfl, [], by simp, by simp⟩

theorem fixWildcardCors_prodWarn (p : FixParams) (st : FixState) (sec : Security)
    (l : List String) (hni : p.interactive = false)
    (hsec : st.config.security = some sec) (hcors : sec.corsEnabled = some true)
    (hao : sec.allowedOrigins = some l) (hw : l.contains "*" = true)
    (henv : cfgEnvironment st.config = some "production") :
    fixWildcardCors p st = { st with warnings := st.warnings ++ [wildcardWarnEntry l] } := by
  unfold fixWildcardCors
  rw [hsec]
  dsimp only
  rw [hcors, hao]
  simp only [truthyBool, hw, Bool.true_and, if_true]
  rw [if_pos henv, if_neg (by simp [hni])]
  simp [wildcardWarnEntry, hao]

theorem runAutoFix_success_eq (p : FixParams) (c : Config) (ans : List String) :
    (runAutoFix p (some c) ans).success =
      ((analyzeAndFix p (initState c ans)).fixes.isEmpty &&
        (analyzeAndFix p (initState c ans)).warnings.isEmpty) := by
  unfold runAutoFix
  dsimp only
  have hfr := saveConfig_frame p (analyzeAndFix p (initState c ans))
  split_ifs with h
  · have hne : (analyzeAndFix p (initState c ans)).fixes.isEmpty = false := by
      rcases hfx : (analyzeAndFix p (initState c ans)).fixes with _ | ⟨a, tl⟩
      · rw [hfx] at h; simp at h
      · simp
    rcases hsv : saveConfig p (analyzeAndFix p (initState c ans)) with ⟨res, st1⟩
    rw [hsv] at hfr
    cases res <;> dsimp only at hfr <;> simp [hfr.1, hfr.2, hne]
  · rfl

theorem runAutoFix_errored_iff (p : FixParams) (c : Config) (ans : List String) :
    (runAutoFix p (some c) ans).errored = true ↔
      ((analyzeAndFix p (initState c ans)).fixes ≠ [] ∧
        ∃ m, (saveConfig p (analyzeAndFix p (initState c ans))).1 = .failed m) := by
  unfold runAutoFix
  dsimp only
  split_ifs with h
  · have hne : (analyzeAndFix p (initState c ans)).fixes ≠ [] := by
      intro he; rw [he] at h; simp at h
    rcases hsv : saveConfig p (analyzeAndFix p (initState c ans)) with ⟨res, st1⟩
    cases res <;> simp [hne]
  · have hfx : (analyzeAndFix p (initState c ans)).fixes = [] := by
      rcases hfx : (analyzeAndFix p (initState c ans)).fixes with _ | ⟨a, tl⟩
      · rfl
      · rw [hfx] at h; simp at h
    simp [hfx]

/-! ## Claim theorems -/

/-- C1 (counterexample): a non-interactive Auto-fixer run on a development
configuration loads the configuration, completes its rule pass with two
successfully applied fixes and no error, yet the process exits with
code 1, not 0 as the claim states. -/
theorem claim_C1_counterexample :
    autoFixExitCode nonInteractiveParams (some cfgDevLogging) [] = 1 ∧
    (runAutoFix nonInteractiveParams (some cfgDevLogging) []).errored = false ∧
    (runAutoFix nonInteractiveParams (some cfgDevLogging) []).saved = true ∧
    (analyzeAndFix nonInteractiveParams (initState cfgDevLogging [])).fixes.length = 2 := by
  decide

/-- C1 (amended): for every run of the Auto-fixer that loads the
configuration and completes its rule pass, the process exits with code 0
exactly when the pass records no fixes and no warnings; in particular a
run that successfully applies one or more fixes exits with code 1. -/
theorem claim_C1_exit_code (p : FixParams) (c : Config) (ans : List String) :
    autoFixExitCode p (some c) ans =
      if (analyzeAndFix p (initState c ans)).fixes = [] ∧
          (analyzeAndFix p (initState c ans)).warnings = [] then 0 else 1 := by
  unfold autoFixExitCode
  rw [runAutoFix_success_eq]
  rcases hfx : (analyzeAndFix p (initState c ans)).fixes with _ | ⟨a, tl⟩ <;>
    rcases hws : (analyzeAndFix p (initState c ans)).warnings with _ | ⟨b, tl2⟩ <;>
      simp

/-- C2: with `--validate-only`, the Orchestrator stops after the initial
validation, but its exit code is 0 regardless of whether that validation
passed: the failure path falls through to `return 0`, contradicting the
claimed (and documented) exit code 1 on validation failure. -/
theorem claim_C2_validate_only_bug :
    validatorExit urlAlwaysOk cfgMissingGlobal = 1 ∧
    (∀ f r : Nat, automateMain true 0 f r = 0) ∧
    (∀ f r : Nat, automateMain true (validatorExit urlAlwaysOk cfgMissingGlobal) f r = 0) := by
  refine ⟨by decide, fun f r => rfl, fun f r => rfl⟩

theorem vseq_ok_iff (a b : Except String Unit) :
    vseq a b = .ok () ↔ (a = .ok () ∧ b = .ok ()) := by
  cases a with
  | error e => simp [vseq]
  | ok u => cases u; simp [vseq]

theorem validateConfiguration_ok_parts (urlOk : String → Bool) (c : Config)
    (h : validateConfiguration urlOk c = .ok ()) :
    ∃ p g, c.platform = some p ∧ c.global = some g ∧
      validatePlatform p = .ok () ∧ validateGlobal g = .ok () ∧
      (∀ a, c.authentication = some a → validateAuthentication a = .ok ()) ∧
      (∀ a, c.api = some a → validateApi urlOk a = .ok ()) ∧
      (∀ l, c.logging = some l → validateLogging l = .ok ()) := by
  unfold validateConfiguration at h
  rcases hp : c.platform with _ | p <;> rw [hp] at h
  · exact Except.noConfusion h
  rcases hg : c.global with _ | g <;> rw [hg] at h
  · exact Except.noConfusion h
  dsimp only at h
  rw [vseq_ok_iff, vseq_ok_iff, vseq_ok_iff, vseq_ok_iff] at h
  obtain ⟨h1, h2, h3, h4, h5⟩ := h
  exact ⟨p, g, rfl, rfl, h1, h2,
    fun a ha => by unfold validateAuthSection at h3; rw [ha] at h3; exact h3,
    fun a ha => by unfold validateApiSection at h4; rw [ha] at h4; exact h4,
    fun l hl => by unfold validateLoggingSection at h5; rw [hl] at h5; exact h5⟩

theorem validateAuthentication_ok_iff (a : Authentication) :
    validateAuthentication a = .ok () ↔
      badSessionTimeout a.sessionTimeout = false ∧
      badMaxLoginAttempts a.maxLoginAttempts = false := by
  unfold validateAuthentication
  split_ifs with h1 h2 <;> simp_all

theorem badSessionTimeout_false {t : Int} (h : badSessionTimeout (some t) = false)
    (ht : t ≠ 0) : 60 ≤ t := by
  unfold badSessionTimeout at h
  simp [ht] at h
  omega

theorem badMaxLoginAttempts_false {m : Int} (h : badMaxLoginAttempts (some m) = false)
    (hm : m ≠ 0) : 1 ≤ m ∧ m ≤ 10 := by
  unfold badMaxLoginAttempts at h
  simp [hm] at h
  omega

/-- C4 (counterexample): a configuration whose `authentication` section is
present with `sessionTimeout = 0` and `maxLoginAttempts = 0` passes
validation, although `0 < 60` and `0` is outside `[1, 10]`: the range
checks are skipped for falsy (zero or absent) values. -/
theorem claim_C4_counterexample :
    validateConfiguration urlAlwaysOk cfgAuthZero = .ok () ∧
    cfgAuthZero.authentication =
      some { sessionTimeout := some 0, maxLoginAttempts := some 0 } ∧
    ¬ ((60 : Int) ≤ 0) ∧ ¬ ((1 : Int) ≤ 0) := by
  exact ⟨by decide, rfl, by decide, by decide⟩

/-- C4 (amended): when the `authentication` section is present, validation
succeeds only if `sessionTimeout`, whenever present and nonzero (truthy),
is at least 60, and `maxLoginAttempts`, whenever present and nonzero
(truthy), lies between 1 and 10. -/
theorem claim_C4_auth_bounds (urlOk : String → Bool) (c : Config) (a : Authentication)
    (ha : c.authentication = some a)
    (h : validateConfiguration urlOk c = .ok ()) :
    (∀ t, a.sessionTimeout = some t → t ≠ 0 → 60 ≤ t) ∧
    (∀ m, a.maxLoginAttempts = some m → m ≠ 0 → 1 ≤ m ∧ m ≤ 10) := by
  obtain ⟨p, g, hp, hg, hvp, hvg, hauth, hapi, hlog⟩ :=
    validateConfiguration_ok_parts urlOk c h
  have hva := hauth a ha
  rw [validateAuthentication_ok_iff] at hva
  exact ⟨fun t ht htne => badSessionTimeout_false (ht ▸ hva.1) htne,
    fun m hm hmne => badMaxLoginAttempts_false (hm ▸ hva.2) hmne⟩

/-- C4 (witness): the amended theorem applied to a concrete configuration
with `sessionTimeout = 120` and `maxLoginAttempts = 5`. -/
theorem claim_C4_witness : (60 : Int) ≤ 120 ∧ (1 ≤ (5 : Int) ∧ (5 : Int) ≤ 10) := by
  have h := claim_C4_auth_bounds urlAlwaysOk cfgAuthFine
    { sessionTimeout := some 120, maxLoginAttempts := some 5 } rfl (by decide)
  exact ⟨h.1 120 rfl (by decide), h.2 5 rfl (by decide)⟩

theorem analyzeAndFix_decomp (p : FixParams) (st : FixState) :
    analyzeAndFix p st =
      fixLoggingSettings p (compressionStep (cachingStep (fixProductionSecurity
        (fixEnvironmentSettings (fixWildcardCors p (fixPlaceholderApiUrl p
          { st with config := ensureSections st.config })))))) := rfl

theorem preRules_frame (p : FixParams) (st : FixState) :
    cfgEnvironment ((fixWildcardCors p (fixPlaceholderApiUrl p st)).config) =
      cfgEnvironment st.config ∧
    cfgEnableSSL ((fixWildcardCors p (fixPlaceholderApiUrl p st)).config) =
      cfgEnableSSL st.config ∧
    cfgEnableHSTS ((fixWildcardCors p (fixPlaceholderApiUrl p st)).config) =
      cfgEnableHSTS st.config ∧
    cfgDbLogging ((fixWildcardCors p (fixPlaceholderApiUrl p st)).config) =
      cfgDbLogging st.config ∧
    cfgCachingEnabled ((fixWildcardCors p (fixPlaceholderApiUrl p st)).config) =
      cfgCachingEnabled st.config ∧
    cfgCompressionEnabled ((fixWildcardCors p (fixPlaceholderApiUrl p st)).config) =
      cfgCompressionEnabled st.config ∧
    (fixWildcardCors p (fixPlaceholderApiUrl p st)).config.database = st.config.database ∧
    (fixWildcardCors p (fixPlaceholderApiUrl p st)).config.logging = st.config.logging ∧
    (fixWildcardCors p (fixPlaceholderApiUrl p st)).config.performance =
      st.config.performance := by
  obtain ⟨hP1, hP2, hP3, hP4, hP5, hP6, hP7, hPw, hPf⟩ := fixPlaceholderApiUrl_frame p st
  obtain ⟨hW1, hW2, hW3, hW4, hW5, hW6, hW7, hW8, hW9, hW10, hWw, hWf⟩ :=
    fixWildcardCors_frame p (fixPlaceholderApiUrl p st)
  refine ⟨?_, ?_, ?_, ?_, ?_, ?_, ?_, ?_, ?_⟩
  · rw [cfgEnvironment_congr hW1, cfgEnvironment_congr hP1]
  · rw [hW9, cfgEnableSSL_congr hP6]
  · rw [hW10, cfgEnableHSTS_congr hP6]
  · rw [cfgDbLogging_congr hW5, cfgDbLogging_congr hP4]
  · rw [cfgCachingEnabled_congr hW7, cfgCachingEnabled_congr hP7]
  · rw [cfgCompressionEnabled_congr hW7, cfgCompressionEnabled_congr hP7]
  · rw [hW5, hP4]
  · rw [hW6, hP5]
  · rw [hW7, hP7]

theorem postRules_frame (p : FixParams) (st : FixState) :
    cfgEnableSSL ((fixLoggingSettings p (compressionStep (cachingStep st))).config) =
      cfgEnableSSL st.config ∧
    cfgEnableHSTS ((fixLoggingSettings p (compressionStep (cachingStep st))).config) =
      cfgEnableHSTS st.config ∧
    cfgDbLogging ((fixLoggingSettings p (compressionStep (cachingStep st))).config) =
      cfgDbLogging st.config ∧
    cfgAllowedOrigins ((fixLoggingSettings p (compressionStep (cachingStep st))).config) =
      cfgAllowedOrigins st.config ∧
    (fixLoggingSettings p (compressionStep (cachingStep st))).warnings = st.warnings ∧
    ∃ ex, (fixLoggingSettings p (compressionStep (cachingStep st))).fixes = st.fixes ++ ex ∧
      ∀ f ∈ ex, f.field = "performance.caching.enabled" ∨
        f.field = "performance.compression.enabled" := by
  obtain ⟨hC1, hC2, hC3, hC4, hC5, hC6, hC7, hCt, hCc, hCw, exC, hCf, hCfi⟩ :=
    cachingStep_frame st
  obtain ⟨hD1, hD2, hD3, hD4, hD5, hD6, hD7, hDt, hDc, hDw, exD, hDf, hDfi⟩ :=
    compressionStep_frame (cachingStep st)
  obtain ⟨hL1, hL2, hL3, hL4⟩ := fixLoggingSettings_frame p (compressionStep (cachingStep st))
  refine ⟨?_, ?_, ?_, ?_, ?_, ?_⟩
  · rw [hL1, cfgEnableSSL_congr hD7, cfgEnableSSL_congr hC7]
  · rw [hL1, cfgEnableHSTS_congr hD7, cfgEnableHSTS_congr hC7]
  · rw [hL1, cfgDbLogging_congr hD5, cfgDbLogging_congr hC5]
  · rw [hL1, cfgAllowedOrigins_congr hD7, cfgAllowedOrigins_congr hC7]
  · rw [hL3, hDw, hCw]
  · refine ⟨exC ++ exD, by rw [hL2, hDf, hCf, List.append_assoc], fun f hf => ?_⟩
    rcases List.mem_append.mp hf with h | h
    · exact .inl (hCfi f h)
    · exact .inr (hDfi f h)

theorem analyzeAndFix_initState (p : FixParams) (c : Config) (ans : List String) :
    analyzeAndFix p (initState c ans) =
      fixLoggingSettings p (compressionStep (cachingStep (fixProductionSecurity
        (fixEnvironmentSettings (fixWildcardCors p (fixPlaceholderApiUrl p
          (initState (ensureSections c) ans))))))) := rfl

theorem prodSteps_post (st : FixState) :
    cfgEnableSSL ((prodDbLogStep (prodHSTSStep (prodSSLStep st))).config) ≠ some false ∧
    cfgEnableHSTS ((prodDbLogStep (prodHSTSStep (prodSSLStep st))).config) ≠ some false ∧
    cfgDbLogging ((prodDbLogStep (prodHSTSStep (prodSSLStep st))).config) ≠ some true ∧
    (cfgEnableSSL st.config = some false →
      cfgEnableSSL ((prodDbLogStep (prodHSTSStep (prodSSLStep st))).config) = some true) ∧
    (cfgEnableHSTS st.config = some false →
      cfgEnableHSTS ((prodDbLogStep (prodHSTSStep (prodSSLStep st))).config) = some true) ∧
    (cfgDbLogging st.config = some true →
      cfgDbLogging ((prodDbLogStep (prodHSTSStep (prodSSLStep st))).config) = some false) := by
  obtain ⟨hS1, hS2, hS3, hS4, hS5, hS6, hS7, hSc, hSa, hSh, hSw, _⟩ := prodSSLStep_frame st
  obtain ⟨hH1, hH2, hH3, hH4, hH5, hH6, hH7, hHc, hHa, hHs, hHw, _⟩ :=
    prodHSTSStep_frame (prodSSLStep st)
  obtain ⟨hD1, hD2, hD3, hD4, hD5, hD6, hD7, hDh, hDw, _⟩ :=
    prodDbLogStep_frame (prodHSTSStep (prodSSLStep st))
  have hSSLfin : cfgEnableSSL ((prodDbLogStep (prodHSTSStep (prodSSLStep st))).config) =
      cfgEnableSSL ((prodSSLStep st).config) := by
    rw [cfgEnableSSL_congr hD5, hHs]
  have hHSTSfin : cfgEnableHSTS ((prodDbLogStep (prodHSTSStep (prodSSLStep st))).config) =
      cfgEnableHSTS ((prodHSTSStep (prodSSLStep st)).config) := by
    rw [cfgEnableHSTS_congr hD5]
  have hDbMid : cfgDbLogging ((prodHSTSStep (prodSSLStep st)).config) =
      cfgDbLogging st.config := by
    rw [cfgDbLogging_congr hH5, cfgDbLogging_congr hS5]
  refine ⟨?_, ?_, ?_, ?_, ?_, ?_⟩
  · rw [hSSLfin]
    by_cases h : cfgEnableSSL st.config = some false
    · rw [prodSSLStep_flip st h]; simp
    · rw [prodSSLStep_id st h]; exact h
  · rw [hHSTSfin]
    by_cases h : cfgEnableHSTS ((prodSSLStep st).config) = some false
    · rw [prodHSTSStep_flip _ h]; simp
    · rw [prodHSTSStep_id _ h]; exact h
  · by_cases h : cfgDbLogging ((prodHSTSStep (prodSSLStep st)).config) = some true
    · rw [prodDbLogStep_flip _ h]; simp
    · rw [prodDbLogStep_id _ h]; exact h
  · intro h
    rw [hSSLfin, prodSSLStep_flip st h]
  · intro h
    rw [hHSTSfin, prodHSTSStep_flip _ (by rw [hSh]; exact h)]
  · intro h
    rw [prodDbLogStep_flip _ (by rw [hDbMid]; exact h)]

/-- C5 (counterexample): on a production configuration whose `security`
section leaves `enableSSL` and `enableHSTS` unset, the rule pass leaves
them unset: they do not equal `true` afterwards, contrary to the claim
that the fields are forced to `true`. -/
theorem claim_C5_counterexample :
    cfgEnvironment cfgProdNoSSL = some "production" ∧
    cfgEnableSSL ((analyzeAndFix nonInteractiveParams
      (initState cfgProdNoSSL [])).config) ≠ some true ∧
    cfgEnableHSTS ((analyzeAndFix nonInteractiveParams
      (initState cfgProdNoSSL [])).config) ≠ some true := by
  decide

/-- C5 (amended): for every production configuration, after the
Auto-fixer's rule pass `security.enableSSL` and `security.enableHSTS` are
never the explicit `false` and `database.enableLogging` is never the
explicit `true`; a field that was explicitly the bad boolean has been
flipped (`false → true` for SSL and HSTS, `true → false` for database
logging).  A field that was absent stays absent. -/
theorem claim_C5_production_flags (p : FixParams) (c : Config) (ans : List String)
    (henv : cfgEnvironment c = some "production") :
    cfgEnableSSL ((analyzeAndFix p (initState c ans)).config) ≠ some false ∧
    cfgEnableHSTS ((analyzeAndFix p (initState c ans)).config) ≠ some false ∧
    cfgDbLogging ((analyzeAndFix p (initState c ans)).config) ≠ some true ∧
    (cfgEnableSSL c = some false →
      cfgEnableSSL ((analyzeAndFix p (initState c ans)).config) = some true) ∧
    (cfgEnableHSTS c = some false →
      cfgEnableHSTS ((analyzeAndFix p (initState c ans)).config) = some true) ∧
    (cfgDbLogging c = some true →
      cfgDbLogging ((analyzeAndFix p (initState c ans)).config) = some false) := by
  rw [analyzeAndFix_initState]
  obtain ⟨hE, hS, hH, hD, hCa, hCo, hDb, hLg, hPf⟩ :=
    preRules_frame p (initState (ensureSections c) ans)
  have hE0 : cfgEnvironment ((initState (ensureSections c) ans).config) =
      cfgEnvironment c := ensure_environment c
  have hS0 : cfgEnableSSL ((initState (ensureSections c) ans).config) =
      cfgEnableSSL c := ensure_enableSSL c
  have hH0 : cfgEnableHSTS ((initState (ensureSections c) ans).config) =
      cfgEnableHSTS c := ensure_enableHSTS c
  have hD0 : cfgDbLogging ((initState (ensureSections c) ans).config) =
      cfgDbLogging c := ensure_dbLogging c
  set stB := fixWildcardCors p (fixPlaceholderApiUrl p (initState (ensureSections c) ans))
    with hstB
  have henvB : cfgEnvironment stB.config = some "production" := by
    rw [hE, hE0]; exact henv
  have hnotdev : cfgEnvironment stB.config ≠ some "development" := by
    rw [henvB]; decide
  rw [fixEnvironmentSettings_notDev _ hnotdev, fixProductionSecurity_prod _ henvB]
  obtain ⟨hq1, hq2, hq3, hq4, hq5, _⟩ :=
    postRules_frame p (prodDbLogStep (prodHSTSStep (prodSSLStep stB)))
  obtain ⟨ht1, ht2, ht3, ht4, ht5, ht6⟩ := prodSteps_post stB
  refine ⟨?_, ?_, ?_, fun h => ?_, fun h => ?_, fun h => ?_⟩
  · rw [hq1]; exact ht1
  · rw [hq2]; exact ht2
  · rw [hq3]; exact ht3
  · rw [hq1]; exact ht4 (by rw [hS, hS0]; exact h)
  · rw [hq2]; exact ht5 (by rw [hH, hH0]; exact h)
  · rw [hq3]; exact ht6 (by rw [hD, hD0]; exact h)

/-- C5 (witness): the amended theorem applied to a concrete production
configuration with all three bad booleans set: they are all flipped. -/
theorem claim_C5_witness :
    cfgEnableSSL ((analyzeAndFix nonInteractiveParams
      (initState cfgProdBadSec [])).config) = some true ∧
    cfgEnableHSTS ((analyzeAndFix nonInteractiveParams
      (initState cfgProdBadSec [])).config) = some true ∧
    cfgDbLogging ((analyzeAndFix nonInteractiveParams
      (initState cfgProdBadSec [])).config) = some false := by
  have h := claim_C5_production_flags nonInteractiveParams cfgProdBadSec [] (by decide)
  exact ⟨h.2.2.2.1 (by decide), h.2.2.2.2.1 (by decide), h.2.2.2.2.2 (by decide)⟩

/-- C8: for every development configuration with
`database.enableLogging = false`, the Auto-fixer sets it to `true` and
records the fix entry for field `database.enableLogging` with `from:false`
and `to:true`. -/
theorem claim_C8_dev_db_logging (p : FixParams) (c : Config) (ans : List String)
    (henv : cfgEnvironment c = some "development")
    (hdbl : cfgDbLogging c = some false) :
    cfgDbLogging ((analyzeAndFix p (initState c ans)).config) = some true ∧
    devDbLogFixEntry ∈ (analyzeAndFix p (initState c ans)).fixes := by
  rw [analyzeAndFix_initState]
  obtain ⟨hE, hS, hH, hD, hCa, hCo, hDb, hLg, hPf⟩ :=
    preRules_frame p (initState (ensureSections c) ans)
  have hE0 : cfgEnvironment ((initState (ensureSections c) ans).config) =
      cfgEnvironment c := ensure_environment c
  have hD0 : cfgDbLogging ((initState (ensureSections c) ans).config) =
      cfgDbLogging c := ensure_dbLogging c
  set stB := fixWildcardCors p (fixPlaceholderApiUrl p (initState (ensureSections c) ans))
    with hstB
  have henvB : cfgEnvironment stB.config = some "development" := by
    rw [hE, hE0]; exact henv
  have hdbB : cfgDbLogging stB.config = some false := by rw [hD, hD0]; exact hdbl
  rw [fixEnvironmentSettings_dev _ henvB]
  obtain ⟨hf1, hf2⟩ := devDatabaseStep_flip stB hdbB
  obtain ⟨hg1, hg2, hg3, hg4, hg5, hg6, hg7, hg8, hg9, hg10, exG, hgf, hgfi⟩ :=
    devLoggingStep_frame (devDatabaseStep stB)
  have hdbC : cfgDbLogging ((devLoggingStep (devDatabaseStep stB)).config) = some true := by
    rw [cfgDbLogging_congr hg6]; exact hf1
  have hmemC : devDbLogFixEntry ∈ (devLoggingStep (devDatabaseStep stB)).fixes := by
    rw [hgf, hf2]
    exact List.mem_append_left _ (List.mem_append_right _ (by simp))
  have henvC : cfgEnvironment ((devLoggingStep (devDatabaseStep stB)).config) ≠
      some "production" := by
    rw [cfgEnvironment_congr hg1]
    obtain ⟨hd1, _⟩ := devDatabaseStep_frame stB
    rw [cfgEnvironment_congr hd1, henvB]
    decide
  rw [fixProductionSecurity_notProd _ henvC]
  obtain ⟨hq1, hq2, hq3, hq4, hq5, exQ, hqf, hqfi⟩ :=
    postRules_frame p (devLoggingStep (devDatabaseStep stB))
  constructor
  · rw [hq3]; exact hdbC
  · rw [hqf]; exact List.mem_append_left _ hmemC

/-- C8 (witness): the theorem applied to a concrete development
configuration. -/
theorem claim_C8_witness :
    cfgDbLogging ((analyzeAndFix nonInteractiveParams
      (initState cfgDevLogging [])).config) = some true ∧
    devDbLogFixEntry ∈ (analyzeAndFix nonInteractiveParams
      (initState cfgDevLogging [])).fixes :=
  claim_C8_dev_db_logging nonInteractiveParams cfgDevLogging [] (by decide) (by decide)

/-- C6: for every production configuration with `security.corsEnabled =
true` and a `security.allowedOrigins` list containing `"*"`, the
non-interactive Auto-fixer leaves `security.allowedOrigins` unchanged,
records no fix for it, and records exactly one warning about the wildcard
(the entry with field `security.allowedOrigins`). -/
theorem claim_C6_wildcard_untouched (p : FixParams) (c : Config) (ans : List String)
    (sec : Security) (l : List String)
    (hni : p.interactive = false)
    (henv : cfgEnvironment c = some "production")
    (hsec : c.security = some sec)
    (hcors : sec.corsEnabled = some true)
    (hao : sec.allowedOrigins = some l)
    (hw : l.contains "*" = true) :
    cfgAllowedOrigins ((analyzeAndFix p (initState c ans)).config) = some l ∧
    (∀ f ∈ (analyzeAndFix p (initState c ans)).fixes,
      f.field ≠ "security.allowedOrigins") ∧
    (analyzeAndFix p (initState c ans)).warnings.filter
      (fun w => w.field == "security.allowedOrigins") = [wildcardWarnEntry l] := by
  rw [analyzeAndFix_initState]
  obtain ⟨hPAc, hPAf, wsA, hPAw, hPAwf⟩ :=
    fixPlaceholderApiUrl_nonInteractive p (initState (ensureSections c) ans) hni
  set stA := fixPlaceholderApiUrl p (initState (ensureSections c) ans) with hstA
  have hsecA : stA.config.security = some sec := by
    rw [hPAc]
    show some (c.security.getD {}) = some sec
    rw [hsec]
    rfl
  have henvA : cfgEnvironment stA.config = some "production" := by
    rw [hPAc]
    exact (ensure_environment c).trans henv
  have hWild := fixWildcardCors_prodWarn p stA sec l hni hsecA hcors hao hw henvA
  rw [hWild]
  set stB : FixState := { stA with warnings := stA.warnings ++ [wildcardWarnEntry l] }
    with hstB
  have henvB : cfgEnvironment stB.config = some "production" := henvA
  have hnotdev : cfgEnvironment stB.config ≠ some "development" := by
    rw [henvB]; decide
  rw [fixEnvironmentSettings_notDev _ hnotdev, fixProductionSecurity_prod _ henvB]
  obtain ⟨hS1, hS2, hS3, hS4, hS5, hS6, hS7, hSc, hSa, hSh, hSw, exS, hfS, hfiS⟩ :=
    prodSSLStep_frame stB
  obtain ⟨hH1, hH2, hH3, hH4, hH5, hH6, hH7, hHc, hHa, hHs, hHw, exH2, hfH, hfiH⟩ :=
    prodHSTSStep_frame (prodSSLStep stB)
  obtain ⟨hD1, hD2, hD3, hD4, hD5, hD6, hD7, hDh, hDw, exD2, hfD, hfiD⟩ :=
    prodDbLogStep_frame (prodHSTSStep (prodSSLStep stB))
  obtain ⟨hq1, hq2, hq3, hq4, hq5, exQ, hqf, hqfi⟩ :=
    postRules_frame p (prodDbLogStep (prodHSTSStep (prodSSLStep stB)))
  have hfixB : stB.fixes = [] := by
    show stA.fixes = []
    rw [hPAf]
    rfl
  have hwarnB : stB.warnings = wsA ++ [wildcardWarnEntry l] := by
    show stA.warnings ++ [wildcardWarnEntry l] = wsA ++ [wildcardWarnEntry l]
    rw [hPAw]
    simp [initState]
  refine ⟨?_, ?_, ?_⟩
  · rw [hq4, cfgAllowedOrigins_congr hD5, hHa, hSa]
    show cfgAllowedOrigins stA.config = some l
    unfold cfgAllowedOrigins
    rw [hsecA]
    simp [hao]
  · intro f hf
    rw [hqf, hfD, hfH, hfS, hfixB] at hf
    simp only [List.nil_append] at hf
    rcases List.mem_append.mp hf with hf' | hfQ
    · rcases List.mem_append.mp hf' with hf'' | hfD'
      · rcases List.mem_append.mp hf'' with hfS' | hfH'
        · rw [hfiS f hfS']; decide
        · rw [hfiH f hfH']; decide
      · rw [hfiD f hfD']; decide
    · rcases hqfi f hfQ with h | h <;> rw [h] <;> decide
  · rw [hq5, hDw, hHw, hSw, hwarnB, List.filter_append]
    rw [List.filter_eq_nil_iff.mpr ?_]
    · simp [wildcardWarnEntry]
    · intro w hw2
      rw [hPAwf w hw2]
      decide

/-- C6 (witness): the theorem applied to a concrete production
configuration with wildcard CORS. -/
theorem claim_C6_witness :
    cfgAllowedOrigins ((analyzeAndFix nonInteractiveParams
      (initState cfgProdWildcard [])).config) = some ["*"] ∧
    (∀ f ∈ (analyzeAndFix nonInteractiveParams (initState cfgProdWildcard [])).fixes,
      f.field ≠ "security.allowedOrigins") ∧
    (analyzeAndFix nonInteractiveParams (initState cfgProdWildcard [])).warnings.filter
      (fun w => w.field == "security.allowedOrigins") = [wildcardWarnEntry ["*"]] :=
  claim_C6_wildcard_untouched nonInteractiveParams cfgProdWildcard []
    { corsEnabled := some true, allowedOrigins := some ["*"] } ["*"]
    rfl (by decide) rfl rfl rfl (by decide)

theorem fixEnvironmentSettings_frame10 (st : FixState) :
    (fixEnvironmentSettings st).config.platform = st.config.platform ∧
    (fixEnvironmentSettings st).config.global = st.config.global ∧
    (fixEnvironmentSettings st).config.authentication = st.config.authentication ∧
    (fixEnvironmentSettings st).config.api = st.config.api ∧
    cfgCorsEnabled (fixEnvironmentSettings st).config = cfgCorsEnabled st.config ∧
    cfgAllowedOrigins (fixEnvironmentSettings st).config = cfgAllowedOrigins st.config ∧
    cfgDbHost (fixEnvironmentSettings st).config = cfgDbHost st.config ∧
    cfgEnableFile (fixEnvironmentSettings st).config = cfgEnableFile st.config ∧
    cfgLogDirectory (fixEnvironmentSettings st).config = cfgLogDirectory st.config ∧
    cfgCachingTtl (fixEnvironmentSettings st).config = cfgCachingTtl st.config := by
  unfold fixEnvironmentSettings
  split_ifs with h
  · obtain ⟨hd1, hd2, hd3, hd4, hd5, hd6, hd7, hd8, hd9, _⟩ := devDatabaseStep_frame st
    obtain ⟨hl1, hl2, hl3, hl4, hl5, hl6, hl7, hl8, hl9, hl10, _⟩ :=
      devLoggingStep_frame (devDatabaseStep st)
    exact ⟨by rw [hl1, hd1], by rw [hl2, hd2], by rw [hl3, hd3], by rw [hl4, hd4],
      by rw [cfgCorsEnabled_congr hl5, cfgCorsEnabled_congr hd5],
      by rw [cfgAllowedOrigins_congr hl5, cfgAllowedOrigins_congr hd5],
      by rw [cfgDbHost_congr hl6, hd8],
      by rw [hl8, cfgEnableFile_congr hd6],
      by rw [hl9, cfgLogDirectory_congr hd6],
      by rw [cfgCachingTtl_congr hl7, cfgCachingTtl_congr hd7]⟩
  · exact ⟨rfl, rfl, rfl, rfl, rfl, rfl, rfl, rfl, rfl, rfl⟩

theorem fixProductionSecurity_frame10 (st : FixState) :
    (fixProductionSecurity st).config.platform = st.config.platform ∧
    (fixProductionSecurity st).config.global = st.config.global ∧
    (fixProductionSecurity st).config.authentication = st.config.authentication ∧
    (fixProductionSecurity st).config.api = st.config.api ∧
    cfgCorsEnabled (fixProductionSecurity st).config = cfgCorsEnabled st.config ∧
    cfgAllowedOrigins (fixProductionSecurity st).config = cfgAllowedOrigins st.config ∧
    cfgDbHost (fixProductionSecurity st).config = cfgDbHost st.config ∧
    cfgEnableFile (fixProductionSecurity st).config = cfgEnableFile st.config ∧
    cfgLogDirectory (fixProductionSecurity st).config = cfgLogDirectory st.config ∧
    cfgCachingTtl (fixProductionSecurity st).config = cfgCachingTtl st.config := by
  unfold fixProductionSecurity
  split_ifs with h
  · obtain ⟨hS1, hS2, hS3, hS4, hS5, hS6, hS7, hSc, hSa, hSh, hSw, _⟩ := prodSSLStep_frame st
    obtain ⟨hH1, hH2, hH3, hH4, hH5, hH6, hH7, hHc, hHa, hHs, hHw, _⟩ :=
      prodHSTSStep_frame (prodSSLStep st)
    obtain ⟨hD1, hD2, hD3, hD4, hD5, hD6, hD7, hDh, hDw, _⟩ :=
      prodDbLogStep_frame (prodHSTSStep (prodSSLStep st))
    exact ⟨by rw [hD1, hH1, hS1], by rw [hD2, hH2, hS2], by rw [hD3, hH3, hS3],
      by rw [hD4, hH4, hS4],
      by rw [cfgCorsEnabled_congr hD5, hHc, hSc],
      by rw [cfgAllowedOrigins_congr hD5, hHa, hSa],
      by rw [hDh, cfgDbHost_congr hH5, cfgDbHost_congr hS5],
      by rw [cfgEnableFile_congr hD6, cfgEnableFile_congr hH6, cfgEnableFile_congr hS6],
      by rw [cfgLogDirectory_congr hD6, cfgLogDirectory_congr hH6, cfgLogDirectory_congr hS6],
      by rw [cfgCachingTtl_congr hD7, cfgCachingTtl_congr hH7, cfgCachingTtl_congr hS7]⟩
  · exact ⟨rfl, rfl, rfl, rfl, rfl, rfl, rfl, rfl, rfl, rfl⟩

/-- C10: in non-interactive mode the Auto-fixer never modifies
`api.baseUrl` or `security.allowedOrigins`; beyond the six fields it may
change (`database.enableLogging`, `logging.level`, `security.enableSSL`,
`security.enableHSTS`, `performance.caching.enabled`,
`performance.compression.enabled`) and the insertion of missing empty
section objects, every other modelled field is left exactly as in the
input configuration. -/
theorem claim_C10_frame (p : FixParams) (c : Config) (ans : List String)
    (hni : p.interactive = false) :
    (analyzeAndFix p (initState c ans)).config.platform = some (c.platform.getD {}) ∧
    (analyzeAndFix p (initState c ans)).config.global = some (c.global.getD {}) ∧
    (analyzeAndFix p (initState c ans)).config.authentication = c.authentication ∧
    (analyzeAndFix p (initState c ans)).config.api = some (c.api.getD {}) ∧
    cfgBaseUrl ((analyzeAndFix p (initState c ans)).config) = cfgBaseUrl c ∧
    cfgApiTimeout ((analyzeAndFix p (initState c ans)).config) = cfgApiTimeout c ∧
    cfgCorsEnabled ((analyzeAndFix p (initState c ans)).config) = cfgCorsEnabled c ∧
    cfgAllowedOrigins ((analyzeAndFix p (initState c ans)).config) = cfgAllowedOrigins c ∧
    cfgDbHost ((analyzeAndFix p (initState c ans)).config) = cfgDbHost c ∧
    cfgEnableFile ((analyzeAndFix p (initState c ans)).config) = cfgEnableFile c ∧
    cfgLogDirectory ((analyzeAndFix p (initState c ans)).config) = cfgLogDirectory c ∧
    cfgCachingTtl ((analyzeAndFix p (initState c ans)).config) = cfgCachingTtl c := by
  rw [analyzeAndFix_initState]
  obtain ⟨hPAc, hPAf, wsA, hPAw, hPAwf⟩ :=
    fixPlaceholderApiUrl_nonInteractive p (initState (ensureSections c) ans) hni
  obtain ⟨hWc, hWf, wsW, hWw, hWwf⟩ :=
    fixWildcardCors_nonInteractive p
      (fixPlaceholderApiUrl p (initState (ensureSections c) ans)) hni
  set stB := fixWildcardCors p (fixPlaceholderApiUrl p (initState (ensureSections c) ans))
    with hstB
  have hB : stB.config = ensureSections c := by rw [hWc, hPAc]; rfl
  obtain ⟨he1, he2, he3, he4, he5, he6, he7, he8, he9, he10⟩ :=
    fixEnvironmentSettings_frame10 stB
  obtain ⟨hp1, hp2, hp3, hp4, hp5, hp6, hp7, hp8, hp9, hp10⟩ :=
    fixProductionSecurity_frame10 (fixEnvironmentSettings stB)
  obtain ⟨hC1, hC2, hC3, hC4, hC5, hC6, hC7, hCt, hCc, hCw, _⟩ :=
    cachingStep_frame (fixProductionSecurity (fixEnvironmentSettings stB))
  obtain ⟨hD1, hD2, hD3, hD4, hD5, hD6, hD7, hDt, hDc, hDw, _⟩ :=
    compressionStep_frame (cachingStep (fixProductionSecurity (fixEnvironmentSettings stB)))
  obtain ⟨hL1, hL2, hL3, hL4⟩ :=
    fixLoggingSettings_frame p
      (compressionStep (cachingStep (fixProductionSecurity (fixEnvironmentSettings stB))))
  refine ⟨?_, ?_, ?_, ?_, ?_, ?_, ?_, ?_, ?_, ?_, ?_, ?_⟩
  · rw [hL1, hD1, hC1, hp1, he1, hB]; rfl
  · rw [hL1, hD2, hC2, hp2, he2, hB]; rfl
  · rw [hL1, hD3, hC3, hp3, he3, hB]; rfl
  · rw [hL1, hD4, hC4, hp4, he4, hB]; rfl
  · rw [hL1, cfgBaseUrl_congr hD4, cfgBaseUrl_congr hC4, cfgBaseUrl_congr hp4,
      cfgBaseUrl_congr he4, cfgBaseUrl_congr (congrArg Config.api hB), ensure_baseUrl]
  · rw [hL1, cfgApiTimeout_congr hD4, cfgApiTimeout_congr hC4, cfgApiTimeout_congr hp4,
      cfgApiTimeout_congr he4, cfgApiTimeout_congr (congrArg Config.api hB), ensure_apiTimeout]
  · rw [hL1, cfgCorsEnabled_congr hD7, cfgCorsEnabled_congr hC7, hp5, he5,
      cfgCorsEnabled_congr (congrArg Config.security hB), ensure_corsEnabled]
  · rw [hL1, cfgAllowedOrigins_congr hD7, cfgAllowedOrigins_congr hC7, hp6, he6,
      cfgAllowedOrigins_congr (congrArg Config.security hB), ensure_allowedOrigins]
  · rw [hL1, cfgDbHost_congr hD5, cfgDbHost_congr hC5, hp7, he7,
      cfgDbHost_congr (congrArg Config.database hB), ensure_dbHost]
  · rw [hL1, cfgEnableFile_congr hD6, cfgEnableFile_congr hC6, hp8, he8,
      cfgEnableFile_congr (congrArg Config.logging hB), ensure_enableFile]
  · rw [hL1, cfgLogDirectory_congr hD6, cfgLogDirectory_congr hC6, hp9, he9,
      cfgLogDirectory_congr (congrArg Config.logging hB), ensure_logDirectory]
  · rw [hL1, hDt, hCt, hp10, he10,
      cfgCachingTtl_congr (congrArg Config.performance hB), ensure_cachingTtl]

/-- C10 (witness): the frame theorem applied to the empty configuration. -/
theorem claim_C10_witness :
    (analyzeAndFix nonInteractiveParams (initState cfgEmpty [])).config.platform =
      some (cfgEmpty.platform.getD {}) ∧
    (analyzeAndFix nonInteractiveParams (initState cfgEmpty [])).config.global =
      some (cfgEmpty.global.getD {}) ∧
    (analyzeAndFix nonInteractiveParams (initState cfgEmpty [])).config.authentication =
      cfgEmpty.authentication ∧
    (analyzeAndFix nonInteractiveParams (initState cfgEmpty [])).config.api =
      some (cfgEmpty.api.getD {}) ∧
    cfgBaseUrl ((analyzeAndFix nonInteractiveParams (initState cfgEmpty [])).config) =
      cfgBaseUrl cfgEmpty ∧
    cfgApiTimeout ((analyzeAndFix nonInteractiveParams (initState cfgEmpty [])).config) =
      cfgApiTimeout cfgEmpty ∧
    cfgCorsEnabled ((analyzeAndFix nonInteractiveParams (initState cfgEmpty [])).config) =
      cfgCorsEnabled cfgEmpty ∧
    cfgAllowedOrigins ((analyzeAndFix nonInteractiveParams (initState cfgEmpty [])).config) =
      cfgAllowedOrigins cfgEmpty ∧
    cfgDbHost ((analyzeAndFix nonInteractiveParams (initState cfgEmpty [])).config) =
      cfgDbHost cfgEmpty ∧
    cfgEnableFile ((analyzeAndFix nonInteractiveParams (initState cfgEmpty [])).config) =
      cfgEnableFile cfgEmpty ∧
    cfgLogDirectory ((analyzeAndFix nonInteractiveParams (initState cfgEmpty [])).config) =
      cfgLogDirectory cfgEmpty ∧
    cfgCachingTtl ((analyzeAndFix nonInteractiveParams (initState cfgEmpty [])).config) =
      cfgCachingTtl cfgEmpty :=
  claim_C10_frame nonInteractiveParams cfgEmpty [] rfl

theorem runAutoFix_noFixes (p : FixParams) (c : Config) (ans : List String)
    (h : (analyzeAndFix p (initState c ans)).fixes = []) :
    runAutoFix p (some c) ans =
      { success := (analyzeAndFix p (initState c ans)).warnings.isEmpty, errored := false,
        saved := false, finalState := some (analyzeAndFix p (initState c ans)) } := by
  unfold runAutoFix
  dsimp only
  rw [if_neg (by rw [h]; simp)]
  simp [h]

/-- C3 (counterexample): a production configuration that passes validation
but has `database.enableLogging = true` goes through the
Validator → Auto-fixer → Validator pipeline with one recorded fix, not
zero: passing validation does not make the Auto-fixer a no-op. -/
theorem claim_C3_counterexample :
    validateConfiguration urlAlwaysOk cfgProdDbLog = .ok () ∧
    cfgEnvironment cfgProdDbLog = some "production" ∧
    (runPipeline urlAlwaysOk nonInteractiveParams [] cfgProdDbLog).fixState.fixes.length
      = 1 := by
  decide

/-- C3 (amended): for every production configuration that passes
validation and carries none of the auto-fix trigger values
(`security.enableSSL = false`, `security.enableHSTS = false`,
`database.enableLogging = true`, `performance.caching.enabled = false`,
`performance.compression.enabled = false`), the non-interactive
Validator → Auto-fixer → Validator pipeline records zero fixes and both
validation runs pass. -/
theorem claim_C3_idempotent (urlOk : String → Bool) (p : FixParams) (ans : List String)
    (c : Config)
    (hni : p.interactive = false)
    (henv : cfgEnvironment c = some "production")
    (hv : validateConfiguration urlOk c = .ok ())
    (hssl : cfgEnableSSL c ≠ some false)
    (hhsts : cfgEnableHSTS c ≠ some false)
    (hdbl : cfgDbLogging c ≠ some true)
    (hca : cfgCachingEnabled c ≠ some false)
    (hco : cfgCompressionEnabled c ≠ some false) :
    (runPipeline urlOk p ans c).firstValidation = .ok () ∧
    (runPipeline urlOk p ans c).fixState.fixes = [] ∧
    (runPipeline urlOk p ans c).secondValidation = .ok () := by
  obtain ⟨hPAc, hPAf, wsA, hPAw, hPAwf⟩ :=
    fixPlaceholderApiUrl_nonInteractive p (initState (ensureSections c) ans) hni
  obtain ⟨hWc, hWf, wsW, hWw, hWwf⟩ :=
    fixWildcardCors_nonInteractive p
      (fixPlaceholderApiUrl p (initState (ensureSections c) ans)) hni
  set stB := fixWildcardCors p (fixPlaceholderApiUrl p (initState (ensureSections c) ans))
    with hstB
  have hBc : stB.config = ensureSections c := by rw [hWc, hPAc]; rfl
  have hBf : stB.fixes = [] := by rw [hWf, hPAf]; rfl
  have henvB : cfgEnvironment stB.config = some "production" := by
    rw [hBc, ensure_environment]; exact henv
  have hsslB : cfgEnableSSL stB.config ≠ some false := by
    rw [hBc, ensure_enableSSL]; exact hssl
  have hhstsB : cfgEnableHSTS stB.config ≠ some false := by
    rw [hBc, ensure_enableHSTS]; exact hhsts
  have hdblB : cfgDbLogging stB.config ≠ some true := by
    rw [hBc, ensure_dbLogging]; exact hdbl
  have hcaB : cfgCachingEnabled stB.config ≠ some false := by
    rw [hBc, ensure_cachingEnabled]; exact hca
  have hEnvId : fixEnvironmentSettings stB = stB :=
    fixEnvironmentSettings_notDev _ (by rw [henvB]; decide)
  have hProdId : fixProductionSecurity stB = stB := by
    rw [fixProductionSecurity_prod _ henvB, prodSSLStep_id _ hsslB,
      prodHSTSStep_id _ hhstsB, prodDbLogStep_id _ hdblB]
  have hCaId : cachingStep stB = stB := cachingStep_id _ hcaB
  have hCoId : compressionStep stB = stB := compressionStep_id _ (by
    rw [hBc, ensure_compressionEnabled]; exact hco)
  have hfix : (analyzeAndFix p (initState c ans)).fixes = [] := by
    rw [analyzeAndFix_initState, ← hstB, hEnvId, hProdId, hCaId, hCoId,
      (fixLoggingSettings_frame p stB).2.1, hBf]
  unfold runPipeline
  rw [runAutoFix_noFixes p c ans hfix]
  exact ⟨hv, hfix, hv⟩

/-- C3 (witness): the amended theorem applied to a concrete clean
production configuration. -/
theorem claim_C3_witness :
    (runPipeline urlAlwaysOk nonInteractiveParams [] cfgProdClean).firstValidation
      = .ok () ∧
    (runPipeline urlAlwaysOk nonInteractiveParams [] cfgProdClean).fixState.fixes = [] ∧
    (runPipeline urlAlwaysOk nonInteractiveParams [] cfgProdClean).secondValidation
      = .ok () :=
  claim_C3_idempotent urlAlwaysOk nonInteractiveParams [] cfgProdClean rfl
    (by decide) (by decide) (by decide) (by decide) (by decide) (by decide) (by decide)

theorem promptAnswer_fst (st : FixState) : (promptAnswer st).1 = st.answers.headD "" := by
  obtain ⟨cfg, fx, ws, ans, cw⟩ := st
  cases ans <;> simp [promptAnswer]

theorem saveConfig_fst_congr (p₁ p₂ : FixParams) (st₁ st₂ : FixState)
    (hi : p₁.interactive = p₂.interactive) (hw : p₁.writeOk = p₂.writeOk)
    (ha : st₁.answers = st₂.answers) :
    (saveConfig p₁ st₁).1 = (saveConfig p₂ st₂).1 := by
  unfold saveConfig
  rw [hi, hw]
  simp only [promptAnswer_fst, ha]
  split_ifs <;> rfl

theorem fixLoggingSettings_warn (p : FixParams) (st : FixState)
    (hd : p.dirExists = false) (hm : p.mkdirOk = false)
    (hef : truthyBool (cfgEnableFile st.config) = true) :
    (fixLoggingSettings p st).consoleWarns =
      st.consoleWarns ++ ["Could not create log directory"] := by
  unfold fixLoggingSettings
  rcases hlg : st.config.logging with _ | lg
  · rw [cfgEnableFile, hlg] at hef
    simp [truthyBool] at hef
  · rw [cfgEnableFile, hlg] at hef
    simp only [Option.some_bind] at hef
    dsimp only
    simp [hef, hd, hm]

/-- C7 (counterexample): a non-interactive run whose `writeFileSync`
throws while saving applied fixes reports an error (the catch-all
handler), returns `false` and exits with code 1; it does not report as if
successful as the claim states. -/
theorem claim_C7_counterexample :
    (runAutoFix writeFailParams (some cfgDevLogging) []).errored = true ∧
    (runAutoFix writeFailParams (some cfgDevLogging) []).success = false ∧
    autoFixExitCode writeFailParams (some cfgDevLogging) [] = 1 ∧
    (analyzeAndFix writeFailParams (initState cfgDevLogging [])).fixes ≠ [] := by
  decide

/-- C7 (amended): a file-system error creating the configured log
directory is reported only as a console warning and does not abort the
run (the outcome is identical to a run with a healthy file system); a
file-system error while writing the fixed configuration back to disk,
however, is rethrown, caught as an error, and makes the run return
failure (exit code 1). -/
theorem claim_C7_fs_errors (i : Bool) (u : String → Option String) (d m w : Bool)
    (c : Config) (ans : List String) :
    ((runAutoFix ⟨i, u, d, m, w⟩ (some c) ans).success =
        (runAutoFix ⟨i, u, true, true, w⟩ (some c) ans).success ∧
      (runAutoFix ⟨i, u, d, m, w⟩ (some c) ans).errored =
        (runAutoFix ⟨i, u, true, true, w⟩ (some c) ans).errored) ∧
    (d = false → m = false →
      truthyBool (cfgEnableFile ((analyzeAndFix ⟨i, u, d, m, w⟩
        (initState c ans)).config)) = true →
      (analyzeAndFix ⟨i, u, d, m, w⟩ (initState c ans)).consoleWarns ≠ []) ∧
    (i = false → w = false →
      (analyzeAndFix ⟨i, u, d, m, w⟩ (initState c ans)).fixes ≠ [] →
      (runAutoFix ⟨i, u, d, m, w⟩ (some c) ans).errored = true ∧
      autoFixExitCode ⟨i, u, d, m, w⟩ (some c) ans = 1) := by
  have hY : fixProductionSecurity (fixEnvironmentSettings (fixWildcardCors ⟨i, u, d, m, w⟩
      (fixPlaceholderApiUrl ⟨i, u, d, m, w⟩ (initState (ensureSections c) ans)))) =
      fixProductionSecurity (fixEnvironmentSettings (fixWildcardCors ⟨i, u, true, true, w⟩
      (fixPlaceholderApiUrl ⟨i, u, true, true, w⟩ (initState (ensureSections c) ans)))) :=
    rfl
  obtain ⟨hL1a, hL2a, hL3a, hL4a⟩ := fixLoggingSettings_frame ⟨i, u, d, m, w⟩
    (compressionStep (cachingStep (fixProductionSecurity (fixEnvironmentSettings
      (fixWildcardCors ⟨i, u, d, m, w⟩ (fixPlaceholderApiUrl ⟨i, u, d, m, w⟩
        (initState (ensureSections c) ans)))))))
  obtain ⟨hL1b, hL2b, hL3b, hL4b⟩ := fixLoggingSettings_frame ⟨i, u, true, true, w⟩
    (compressionStep (cachingStep (fixProductionSecurity (fixEnvironmentSettings
      (fixWildcardCors ⟨i, u, true, true, w⟩ (fixPlaceholderApiUrl ⟨i, u, true, true, w⟩
        (initState (ensureSections c) ans)))))))
  have hfxeq : (analyzeAndFix ⟨i, u, d, m, w⟩ (initState c ans)).fixes =
      (analyzeAndFix ⟨i, u, true, true, w⟩ (initState c ans)).fixes := by
    rw [analyzeAndFix_initState, analyzeAndFix_initState, hL2a, hL2b, hY]
  have hwseq : (analyzeAndFix ⟨i, u, d, m, w⟩ (initState c ans)).warnings =
      (analyzeAndFix ⟨i, u, true, true, w⟩ (initState c ans)).warnings := by
    rw [analyzeAndFix_initState, analyzeAndFix_initState, hL3a, hL3b, hY]
  have haeq : (analyzeAndFix ⟨i, u, d, m, w⟩ (initState c ans)).answers =
      (analyzeAndFix ⟨i, u, true, true, w⟩ (initState c ans)).answers := by
    rw [analyzeAndFix_initState, analyzeAndFix_initState, hL4a, hL4b, hY]
  refine ⟨⟨?_, ?_⟩, ?_, ?_⟩
  · rw [runAutoFix_success_eq, runAutoFix_success_eq, hfxeq, hwseq]
  · have h1 := runAutoFix_errored_iff ⟨i, u, d, m, w⟩ c ans
    have h2 := runAutoFix_errored_iff ⟨i, u, true, true, w⟩ c ans
    have hsv : (saveConfig ⟨i, u, d, m, w⟩
        (analyzeAndFix ⟨i, u, d, m, w⟩ (initState c ans))).1 =
        (saveConfig ⟨i, u, true, true, w⟩
        (analyzeAndFix ⟨i, u, true, true, w⟩ (initState c ans))).1 :=
      saveConfig_fst_congr _ _ _ _ rfl rfl haeq
    rw [hfxeq, hsv] at h1
    rw [← h2] at h1
    cases hE1 : (runAutoFix ⟨i, u, d, m, w⟩ (some c) ans).errored <;>
      cases hE2 : (runAutoFix ⟨i, u, true, true, w⟩ (some c) ans).errored <;>
        simp_all
  · intro hd hm hef
    rw [analyzeAndFix_initState] at hef ⊢
    rw [hL1a] at hef
    rw [fixLoggingSettings_warn _ _ hd hm hef]
    simp
  · intro hi hw hfx
    have hsv : (saveConfig ⟨i, u, d, m, w⟩
        (analyzeAndFix ⟨i, u, d, m, w⟩ (initState c ans))).1 =
        .failed "Failed to save configuration" := by
      unfold saveConfig
      simp [hi, hw]
    refine ⟨?_, ?_⟩
    · rw [runAutoFix_errored_iff]
      exact ⟨hfx, _, hsv⟩
    · rcases hfx2 : (analyzeAndFix ⟨i, u, d, m, w⟩ (initState c ans)).fixes with _ | ⟨a, tl⟩
      · exact absurd hfx2 hfx
      · simp [autoFixExitCode, runAutoFix_success_eq, hfx2]

theorem takeWhile_append_of_neg (p : Char → Bool) (a : List Char) (x : Char)
    (r : List Char) (ha : ∀ ch ∈ a, p ch = true) (hx : p x = false) :
    (a ++ x :: r).takeWhile p = a := by
  induction a with
  | nil => simp [List.takeWhile_cons, hx]
  | cons ch tl ih =>
    have hch : p ch = true := ha ch (by simp)
    simp only [List.cons_append, List.takeWhile_cons, hch, if_true]
    rw [ih (fun ch2 h2 => ha ch2 (by simp [h2]))]

theorem dropWhile_append_of_neg (p : Char → Bool) (a : List Char) (x : Char)
    (r : List Char) (ha : ∀ ch ∈ a, p ch = true) (hx : p x = false) :
    (a ++ x :: r).dropWhile p = x :: r := by
  induction a with
  | nil => simp [List.dropWhile_cons, hx]
  | cons ch tl ih =>
    have hch : p ch = true := ha ch (by simp)
    simp only [List.cons_append, List.dropWhile_cons, hch, if_true]
    exact ih (fun ch2 h2 => ha ch2 (by simp [h2]))

theorem takeWhile_eq_self_of_all (p : Char → Bool) (l : List Char)
    (h : ∀ ch ∈ l, p ch = true) : l.takeWhile p = l := by
  induction l with
  | nil => rfl
  | cons ch tl ih =>
    have hch : p ch = true := h ch (by simp)
    simp only [List.takeWhile_cons, hch, if_true]
    rw [ih (fun ch2 h2 => h ch2 (by simp [h2]))]

theorem dropWhile_eq_nil_of_all (p : Char → Bool) (l : List Char)
    (h : ∀ ch ∈ l, p ch = true) : l.dropWhile p = [] := by
  induction l with
  | nil => rfl
  | cons ch tl ih =>
    have hch : p ch = true := h ch (by simp)
    simp only [List.dropWhile_cons, hch, if_true]
    exact ih (fun ch2 h2 => h ch2 (by simp [h2]))

theorem chompNum_some {l d r : List Char} (h : chompNum l = some (d, r)) :
    l = d ++ r ∧ d ≠ [] ∧ ∀ ch ∈ d, ch.isDigit = true := by
  unfold chompNum at h
  dsimp only at h
  split_ifs at h with he
  injection h with h'
  injection h' with h1 h2
  refine ⟨?_, ?_, ?_⟩
  · rw [← h1, ← h2]
    exact (List.takeWhile_append_dropWhile Char.isDigit l).symm
  · rw [← h1]
    intro hne
    rw [hne] at he
    exact he rfl
  · intro ch hch
    rw [← h1] at hch
    exact List.mem_takeWhile_imp hch

theorem chompDot_some {l r : List Char} (h : chompDot l = some r) : l = '.' :: r := by
  cases l with
  | nil => simp [chompDot] at h
  | cons x xs =>
    unfold chompDot at h
    dsimp only at h
    split_ifs at h with hx
    injection h with h'
    rw [hx, h']

theorem chompNum_append_dot (d rs : List Char) (hd : d ≠ [])
    (hdig : ∀ ch ∈ d, ch.isDigit = true) :
    chompNum (d ++ '.' :: rs) = some (d, '.' :: rs) := by
  unfold chompNum
  rw [takeWhile_append_of_neg _ _ _ _ hdig (by decide),
    dropWhile_append_of_neg _ _ _ _ hdig (by decide)]
  have : d.isEmpty = false := by
    cases d with
    | nil => exact absurd rfl hd
    | cons a tl => rfl
  simp [this]

theorem chompNum_all (d : List Char) (hd : d ≠ [])
    (hdig : ∀ ch ∈ d, ch.isDigit = true) :
    chompNum d = some (d, []) := by
  unfold chompNum
  rw [takeWhile_eq_self_of_all _ _ hdig, dropWhile_eq_nil_of_all _ _ hdig]
  have : d.isEmpty = false := by
    cases d with
    | nil => exact absurd rfl hd
    | cons a tl => rfl
  simp [this]

theorem versionRegexTest_iff (s : String) :
    versionRegexTest s = true ↔ versionShape s := by
  constructor
  · intro h
    unfold versionRegexTest at h
    rcases h1 : chompNum s.data with _ | ⟨d1, r1⟩ <;> rw [h1] at h
    · simp at h
    dsimp only at h
    rcases h2 : chompDot r1 with _ | r1' <;> rw [h2] at h
    · simp at h
    dsimp only at h
    rcases h3 : chompNum r1' with _ | ⟨d2, r2⟩ <;> rw [h3] at h
    · simp at h
    dsimp only at h
    rcases h4 : chompDot r2 with _ | r2' <;> rw [h4] at h
    · simp at h
    dsimp only at h
    rcases h5 : chompNum r2' with _ | ⟨d3, r3⟩ <;> rw [h5] at h
    · simp at h
    dsimp only at h
    obtain ⟨hl1, hne1, hdig1⟩ := chompNum_some h1
    obtain ⟨hl3, hne3, hdig3⟩ := chompNum_some h3
    obtain ⟨hl5, hne5, hdig5⟩ := chompNum_some h5
    have hr1 := chompDot_some h2
    have hr2 := chompDot_some h4
    have hr3 : r3 = [] := by
      cases r3 with
      | nil => rfl
      | cons y ys => simp at h
    refine ⟨d1, d2, d3, hne1, hne3, hne5, hdig1, hdig3, hdig5, ?_⟩
    rw [hl1, hr1, hl3, hr2, hl5, hr3, List.append_nil]
  · rintro ⟨a, b, c, hna, hnb, hnc, hda, hdb, hdc, hs⟩
    unfold versionRegexTest
    rw [hs, chompNum_append_dot a _ hna hda]
    dsimp only
    rw [show chompDot ('.' :: (b ++ '.' :: c)) = some (b ++ '.' :: c) by simp [chompDot]]
    dsimp only
    rw [chompNum_append_dot b _ hnb hdb]
    dsimp only
    rw [show chompDot ('.' :: c) = some c by simp [chompDot]]
    dsimp only
    simp [chompNum_all c hnc hdc]

theorem validatePlatform_ok_version (pl : Platform) (h : validatePlatform pl = .ok ()) :
    ∃ v, pl.version = some v ∧ versionRegexTest v = true := by
  unfold validatePlatform at h
  rcases hn : pl.name with _ | nm <;> rw [hn] at h
  · exact Except.noConfusion h
  rcases hv : pl.version with _ | v <;> rw [hv] at h
  · exact Except.noConfusion h
  rcases he : pl.environment with _ | env <;> rw [he] at h
  · exact Except.noConfusion h
  dsimp only at h
  split_ifs at h with h1 h2 h3
  all_goals
    first
      | exact Except.noConfusion h
      | exact ⟨v, rfl, by simpa using h2⟩

/-- C9: `platform.version` must match the anchored pattern
digits `.` digits `.` digits: the regex test rejects `"1.2"` and accepts
`"1.2.3"`; the test accepts exactly the strings of that shape
(`versionShape`); every configuration with version `"1.2"` fails
validation; and every configuration that passes validation has a version
accepted by the test. -/
theorem claim_C9_version_regex :
    versionRegexTest "1.2" = false ∧
    versionRegexTest "1.2.3" = true ∧
    (∀ s, versionRegexTest s = true ↔ versionShape s) ∧
    (∀ (urlOk : String → Bool) (c : Config) (pl : Platform),
      c.platform = some pl → pl.version = some "1.2" →
      validateConfiguration urlOk c ≠ .ok ()) ∧
    (∀ (urlOk : String → Bool) (c : Config),
      validateConfiguration urlOk c = .ok () →
      ∀ pl, c.platform = some pl →
        ∃ v, pl.version = some v ∧ versionRegexTest v = true) := by
  have hmain : ∀ (urlOk : String → Bool) (c : Config),
      validateConfiguration urlOk c = .ok () →
      ∀ pl, c.platform = some pl →
        ∃ v, pl.version = some v ∧ versionRegexTest v = true := by
    intro urlOk c h pl hpl
    obtain ⟨p, g, hp, hg, hvp, _⟩ := validateConfiguration_ok_parts urlOk c h
    rw [hp] at hpl
    injection hpl with hpl'
    rw [hpl'] at hvp
    exact validatePlatform_ok_version pl hvp
  refine ⟨by decide, by decide, versionRegexTest_iff, ?_, hmain⟩
  intro urlOk c pl hpl hv h
  obtain ⟨v, hv', ht⟩ := hmain urlOk c h pl hpl
  rw [hv] at hv'
  injection hv' with hv''
  rw [← hv''] at ht
  exact absurd ht (by decide)

/-- C9 (witness): the validation-implies-regex conjunct applied to a
concrete valid configuration whose version is `"1.2.3"`. -/
theorem claim_C9_witness :
    ∃ v, ({ name := some "Automatice-Participatory", version := some "1.2.3",
            environment := some "production" } : Platform).version = some v ∧
      versionRegexTest v = true :=
  claim_C9_version_regex.2.2.2.2 urlAlwaysOk cfgProdClean (by decide) _ rfl

/-- C7 (witness): the amended theorem applied to a non-interactive run on
a development configuration with file logging enabled, a missing log
directory whose creation fails, and a failing write. -/
theorem claim_C7_witness :
    ((runAutoFix ⟨false, fun _ => none, false, false, false⟩
        (some cfgDevFile) []).success =
      (runAutoFix ⟨false, fun _ => none, true, true, false⟩
        (some cfgDevFile) []).success ∧
     (runAutoFix ⟨false, fun _ => none, false, false, false⟩
        (some cfgDevFile) []).errored =
      (runAutoFix ⟨false, fun _ => none, true, true, false⟩
        (some cfgDevFile) []).errored) ∧
    (analyzeAndFix ⟨false, fun _ => none, false, false, false⟩
      (initState cfgDevFile [])).consoleWarns ≠ [] ∧
    ((runAutoFix ⟨false, fun _ => none, false, false, false⟩
        (some cfgDevFile) []).errored = true ∧
      autoFixExitCode ⟨false, fun _ => none, false, false, false⟩
        (some cfgDevFile) [] = 1) := by
  have h := claim_C7_fs_errors false (fun _ => none) false false false cfgDevFile []
  exact ⟨h.1, h.2.1 rfl rfl (by decide), h.2.2 rfl rfl (by decide)⟩

end LivePlatform
